import Mathlib

/-!
# BasicWebSocket: a shallow embedding of `UBasicWebSocket`

The session object of `Source/MinimalWebsocketTest/BasicWebSocket.{h,cpp}` is
embedded as a record `Session` and its member functions as functions on that
record.

Conventions of the embedding.

* `FString` is `String`; `FDateTime` and `FTimespan` are tick counts in `Int`
  (one tick is 100 ns, so one millisecond is 10000 ticks).  Date arithmetic on
  valid `FDateTime` values stays far inside the 64 bit range, so no wrap-around
  is modelled.  A time span is halved the way `FTimespan::operator/(double)` does
  it: the tick count is converted to double precision, divided, and cast back,
  which is truncating division for spans below 2^53 ticks (some 28 years) and
  rounds the span to 53 significant bits first above that.  `FString::Len` counts
  UTF-16 code units.
* Enumerator names are looked up the way `UEnum::GetValueByNameString` does it:
  without regard to (ASCII) letter case, with or without the `EWebSocketMessageType::`
  qualifier, over the eight enumerators of the header and the `_MAX` entry the
  reflection data adds.
* `TSharedPtr<IWebSocket> Socket` is `Option Transport`.  A `Transport` records
  what `IsConnected()` answers and which handlers the session has bound to it.
  Requests made to the socket (`Send`, `Connect`, `Close`) and delegate
  broadcasts to outside observers are appended to `Session.trace`; they do not
  call back into the session.
* Every member function appends `Effect.call` with its own name to the trace on
  entry.  `UE_LOG` lines are not modelled.
* What the surroundings decide (the clock, the socket factory, the module
  manager, the JSON converter) is read from an `Env`.
* Dereferencing a null `Socket` is a fault: the function stops and the outcome
  is `Outcome.faulted` with the state reached so far.  `Initialise` is the one
  place where this can happen, in the branch the source tests with `if(!Socket)`;
  the factory of the engine returns a non-null reference, so that branch is not
  taken with it.
-/

namespace BasicWebSocket

/-! ## Message kinds and the reflection table -/

/-- Values of `enum class EWebSocketMessageType : uint8`. -/
abbrev EWebSocketMessageType := Fin 256

namespace EWebSocketMessageType

abbrev RequestAuthentication : EWebSocketMessageType := 0
abbrev PlayerAuthenticated : EWebSocketMessageType := 1
abbrev PlayerNotAuthenticated : EWebSocketMessageType := 2
abbrev WarningMessage : EWebSocketMessageType := 3
abbrev ErrorMessage : EWebSocketMessageType := 4
abbrev Ping : EWebSocketMessageType := 5
abbrev Pong : EWebSocketMessageType := 6
abbrev INVALID : EWebSocketMessageType := 7

end EWebSocketMessageType

/-- The seven message kinds of the wire protocol (every enumerator but `INVALID`). -/
def definedKinds : List EWebSocketMessageType :=
  [EWebSocketMessageType.RequestAuthentication, EWebSocketMessageType.PlayerAuthenticated,
   EWebSocketMessageType.PlayerNotAuthenticated, EWebSocketMessageType.WarningMessage,
   EWebSocketMessageType.ErrorMessage, EWebSocketMessageType.Ping,
   EWebSocketMessageType.Pong]

/-- Enumerator names and values of `EWebSocketMessageType`, in declaration order,
as the `UENUM` reflection data lists them: the eight enumerators of the header and the
`_MAX` entry that the reflection data adds after the last one. -/
def enumEntries : List (String × Int) :=
  [("RequestAuthentication", 0), ("PlayerAuthenticated", 1), ("PlayerNotAuthenticated", 2),
   ("WarningMessage", 3), ("ErrorMessage", 4), ("Ping", 5), ("Pong", 6), ("INVALID", 7),
   ("EWebSocketMessageType_MAX", 8)]

/-- The name of the enum, which qualifies its enumerators in the reflection data. -/
def enumName : String := "EWebSocketMessageType"

/-- A string with its ASCII capital letters made small: reflection names are compared
without regard to case. -/
def lowerCase (s : String) : String :=
  String.mk (s.data.map Char.toLower)

/-- Whether a search string names the enumerator `entry`: it is the enumerator name,
alone or qualified by the enum name, up to letter case. -/
def nameMatches (entry search : String) : Bool :=
  lowerCase search == lowerCase entry ||
    lowerCase search == lowerCase (enumName ++ "::" ++ entry)

/-- The constant `INDEX_NONE` of the engine. -/
def INDEX_NONE : Int := -1

/-- Reflection lookup `UEnum::GetNameStringByValue`: the enumerator name of a value,
the empty string when no enumerator has that value. -/
def GetNameStringByValue (v : Int) : String :=
  match enumEntries.find? (fun e => e.2 == v) with
  | some e => e.1
  | none => ""

/-- Reflection lookup `UEnum::GetValueByNameString`: the value of the first enumerator
that the search string names, short or qualified and without regard to case,
`INDEX_NONE` when it names none. -/
def GetValueByNameString (name : String) : Int :=
  match enumEntries.find? (fun e => nameMatches e.1 name) with
  | some e => e.2
  | none => INDEX_NONE

/-- The C cast of an `int64` to the `uint8` underlying the enum. -/
def castToEnum (v : Int) : EWebSocketMessageType :=
  ⟨(v % 256).toNat, by omega⟩

/-- Source: `UBasicWebSocket::WSMessageTypeEnumToString`. -/
def WSMessageTypeEnumToString (MessageType : EWebSocketMessageType) : String :=
  GetNameStringByValue (MessageType.val : Int)

/-- Source: `UBasicWebSocket::WSMessageTypeStringToEnum`. -/
def WSMessageTypeStringToEnum (MessageTypeString : String) : EWebSocketMessageType :=
  castToEnum (GetValueByNameString MessageTypeString)

/-- Source: `UBasicWebSocket::ConvertMessageToString`; `toJson` stands for
`FJsonObjectConverter::UStructToJsonObjectString` at the payload type. -/
def ConvertMessageToString {α : Type} (toJson : α → String)
    (MessageType : EWebSocketMessageType) (MessageData : α) : String :=
  WSMessageTypeEnumToString MessageType ++ "\n" ++ toJson MessageData

/-- The first occurrence of a line feed splits a character list in two. -/
def splitAtLineFeed : List Char → Option (List Char × List Char)
  | [] => none
  | c :: cs =>
    if c = Char.ofNat 10 then some ([], cs)
    else (splitAtLineFeed cs).map (fun p => (c :: p.1, p.2))

/-- The call `Message.Split("\n", &MessageTypeString, &MessageDataString)` of
`HandleInboundMessage`: both outputs stay empty when there is no line feed. -/
def Split (Message : String) : String × String :=
  match splitAtLineFeed Message.data with
  | some (l, r) => (String.mk l, String.mk r)
  | none => ("", "")

/-! ## Payloads -/

/-- Source: `FRequestAuthenticationPayload`. -/
structure FRequestAuthenticationPayload where
  PlayerName : String
  PlayerID : String
  GameVersion : String
  deriving DecidableEq, Repr

/-- Source: `FPingPayload`. -/
structure FPingPayload where
  PingTime : Int
  PingMs : Int
  CurrentLatencyEstimate : Int
  CurrentServerTimeOffsetEstimate : Int
  deriving DecidableEq, Repr

/-- Source: `FPlayerAuthenticatedPayload`. -/
structure FPlayerAuthenticatedPayload where
  PlayerName : String
  PlayerID : String
  deriving DecidableEq, Repr

/-- Source: `FPongPayload`. -/
structure FPongPayload where
  PingTime : Int
  PongTime : Int
  deriving DecidableEq, Repr

/-! ## Session state -/

/-- The `IWebSocket` object held in `Socket`, as far as the session can tell. -/
structure Transport where
  /-- Answer of `IsConnected()`. -/
  connected : Bool
  /-- Lambda bound to `OnConnected()`. -/
  onConnected : Bool
  /-- Lambda bound to `OnConnectionError()`. -/
  onConnectionError : Bool
  /-- Lambda bound to `OnClosed()`. -/
  onClosed : Bool
  /-- Method `HandleInboundMessage` bound to `OnMessage()`. -/
  onMessage : Bool
  /-- Lambda bound to `OnRawMessage()`. -/
  onRawMessage : Bool
  deriving DecidableEq, Repr

/-- Member functions of `UBasicWebSocket` that record their entry in the trace. -/
inductive Fn
  | Initialise
  | FlushMessageOutQueue
  | PingServer
  | SendMessage
  | HandlePongMessage
  | PlayerAuthenticatedDelegate
  | DisconnectFromServer
  | BeginDestroy
  | RequestAuthentication
  | HandleInboundMessage
  deriving DecidableEq, Repr

/-- What a member function does to the outside, in the order it does it. -/
inductive Effect
  /-- Entry of a member function. -/
  | call (f : Fn)
  /-- The call `CreateWebSocket` of the socket factory. -/
  | createWebSocket
  /-- The call `Socket->Send`. -/
  | send (msg : String)
  /-- The call `Socket->Connect`. -/
  | connect
  /-- The call `Socket->Close`. -/
  | close
  /-- Broadcast of `OnMessageSent`. -/
  | messageSent (msg : String) (time : Int)
  /-- Broadcast of `OnMessageReceived`. -/
  | messageReceived (msg : String) (time : Int)
  /-- Broadcast of `OnPlayerAuthenticated` to outside observers. -/
  | playerAuthenticated (payload : FPlayerAuthenticatedPayload)
  /-- Broadcast of `OnWarningMessage`. -/
  | warningMessage (msg : String)
  /-- Broadcast of `OnErrorMessage`. -/
  | errorMessage (msg : String)
  /-- Broadcast of `OnInternalErrorMessage`. -/
  | internalError (msg : String)
  deriving DecidableEq, Repr

/-- Data members of `UBasicWebSocket` (names as in the header), the number of times
`PlayerAuthenticatedDelegate` is bound to `OnPlayerAuthenticated`, and the trace. -/
structure Session where
  ServerURL : String
  ServerProtocol : String
  bIsAuthenticated : Bool
  Socket : Option Transport
  PlayerName : String
  PlayerID : String
  GameVersion : String
  ConnectionIsLive : Bool
  bWantToConnect : Bool
  LatencyEstimate : Int
  ServerClockOffset : Int
  LastStringMessageLength : Int
  /-- Whether `OnSocketClosedLambdaFunctionHandle.IsValid()`. -/
  OnSocketClosedLambdaFunctionHandle : Bool
  ShuttingDown : Bool
  MessageOutQueue : List String
  /-- Bindings of `PlayerAuthenticatedDelegate` on `OnPlayerAuthenticated`. -/
  authDelegates : Nat
  trace : List Effect
  deriving DecidableEq, Repr

/-- A newly constructed object: the default member initialisers of the header. -/
def Session.fresh : Session where
  ServerURL := ""
  ServerProtocol := "ws"
  bIsAuthenticated := false
  Socket := none
  PlayerName := ""
  PlayerID := ""
  GameVersion := ""
  ConnectionIsLive := true
  bWantToConnect := true
  LatencyEstimate := 0
  ServerClockOffset := 0
  LastStringMessageLength := 0
  OnSocketClosedLambdaFunctionHandle := false
  ShuttingDown := false
  MessageOutQueue := []
  authDelegates := 0
  trace := []

/-- What the surroundings answer during one operation. -/
structure Env where
  /-- Reading of `FDateTime::Now()`, in ticks. -/
  now : Int
  /-- First answer of `IsModuleLoaded("WebSockets")`. -/
  moduleLoaded : Bool
  /-- Answer of `IsModuleLoaded("WebSockets")` after `LoadModule`. -/
  moduleLoadedAfterLoad : Bool
  /-- Whether `Socket` is non-null after `CreateWebSocket`.  The factory of the engine
  returns a non-null reference, so with it this is `true`; the case `false` is the one
  the source tests with `if(!Socket)`. -/
  createWebSocket : Bool
  /-- JSON text of an authentication request. -/
  authToJson : FRequestAuthenticationPayload → String
  /-- JSON text of a ping. -/
  pingToJson : FPingPayload → String
  /-- Pong payload read from JSON text. -/
  jsonToPong : String → FPongPayload
  /-- Authentication acknowledgement read from JSON text. -/
  jsonToPlayerAuthenticated : String → FPlayerAuthenticatedPayload

/-- Result of running a member function. -/
inductive Outcome
  /-- The function returned in state `s`. -/
  | returned (s : Session)
  /-- A null `Socket` was dereferenced in state `s`. -/
  | faulted (s : Session)
  deriving DecidableEq, Repr

/-- The state in which the function stopped. -/
def Outcome.state : Outcome → Session
  | .returned s => s
  | .faulted s => s

/-- Whether the function returned. -/
def Outcome.isReturned : Outcome → Bool
  | .returned _ => true
  | .faulted _ => false

/-- Sequencing: the next statement runs only when the previous call returned. -/
def Outcome.andThen (o : Outcome) (f : Session → Outcome) : Outcome :=
  match o with
  | .returned s => f s
  | .faulted s => .faulted s

/-- Append one effect to the trace. -/
def emit (e : Effect) (s : Session) : Session :=
  { s with trace := s.trace ++ [e] }

/-- A socket as the factory hands it back: not connected, nothing bound. -/
def Transport.created : Transport where
  connected := false
  onConnected := false
  onConnectionError := false
  onClosed := false
  onMessage := false
  onRawMessage := false

/-! ## Member functions -/

/-- Source: `UBasicWebSocket::Initialise`. -/
def Initialise (env : Env) (PlayerNameIn PlayerIDIn GameVersionIn : String)
    (s : Session) : Outcome :=
  let s := emit (.call .Initialise) s
  let s := { s with bWantToConnect := true }
  let s :=
    if !env.moduleLoaded && !env.moduleLoadedAfterLoad then
      emit (.internalError "WebSockets module is still not loaded") s
    else s
  let s := { s with PlayerName := PlayerNameIn, PlayerID := PlayerIDIn,
                    GameVersion := GameVersionIn }
  let s := emit .createWebSocket s
  let s := { s with Socket := if env.createWebSocket then some Transport.created else none }
  match s.Socket with
  | none =>
    -- the error is broadcast and the null pointer is dereferenced right after
    .faulted (emit (.internalError "Failed to create websocket object") s)
  | some sock =>
    let sock := { sock with onConnected := true }
    let sock := { sock with onConnectionError := true }
    let sock := { sock with onClosed := true }
    let s := { s with OnSocketClosedLambdaFunctionHandle := true }
    let sock := { sock with onMessage := true }
    let s := { s with authDelegates := s.authDelegates + 1 }
    let sock := { sock with onRawMessage := true }
    let s := { s with Socket := some sock }
    .returned (emit .connect s)

/-- Source: `UBasicWebSocket::DisconnectFromServer`. -/
def DisconnectFromServer (s : Session) : Session :=
  let s := emit (.call .DisconnectFromServer) s
  let s := { s with bWantToConnect := false }
  let s := { s with bIsAuthenticated := false }
  match s.Socket with
  | none => s
  | some sock =>
    let sock :=
      if s.OnSocketClosedLambdaFunctionHandle then { sock with onClosed := false } else sock
    let s := { s with Socket := some sock }
    if sock.connected then emit .close s else s

/-- The loop `while (MessageOutQueue.Dequeue(MessageOut))` of `FlushMessageOutQueue`,
by recursion on the entries still queued. -/
def flushLoop (env : Env) : List String → Session → Session
  | [], s => { s with MessageOutQueue := [] }
  | MessageOut :: rest, s =>
    let s := { s with MessageOutQueue := rest }
    let s := emit (.messageSent MessageOut env.now) s
    let s := emit (.send MessageOut) s
    flushLoop env rest s

/-- Source: `UBasicWebSocket::FlushMessageOutQueue`. -/
def FlushMessageOutQueue (env : Env) (s : Session) : Outcome :=
  let s := emit (.call .FlushMessageOutQueue) s
  if !s.bWantToConnect then
    .returned (DisconnectFromServer s)
  else
    match s.Socket with
    | none =>
      if s.ServerURL != "" && s.PlayerName != "" && s.PlayerID != "" then
        (Initialise env s.PlayerName s.PlayerID s.GameVersion s).andThen .returned
      else
        .returned s
    | some sock =>
      if !sock.connected then
        .returned (emit .connect s)
      else if !s.ConnectionIsLive then
        .returned s
      else
        .returned (flushLoop env s.MessageOutQueue s)

/-- The millisecond component `FDateTime::GetMillisecond` of a tick count. -/
def GetMillisecond (ticks : Int) : Int :=
  Int.tmod (Int.tdiv ticks 10000) 1000

/-- Source: `UBasicWebSocket::PingServer`. -/
def PingServer (env : Env) (s : Session) : Outcome :=
  let s := emit (.call .PingServer) s
  if !s.bWantToConnect then
    .returned (DisconnectFromServer s)
  else
    let s := { s with ConnectionIsLive := false }
    match s.Socket with
    | none =>
      if s.ServerURL != "" && s.PlayerName != "" && s.PlayerID != "" then
        (Initialise env s.PlayerName s.PlayerID s.GameVersion s).andThen .returned
      else
        .returned s
    | some sock =>
      if !sock.connected then
        .returned (emit .connect s)
      else
        let CurrentTime := env.now
        let PingPayload : FPingPayload :=
          { PingTime := CurrentTime
            PingMs := GetMillisecond CurrentTime
            CurrentLatencyEstimate := s.LatencyEstimate
            CurrentServerTimeOffsetEstimate := s.ServerClockOffset }
        .returned (emit (.send (ConvertMessageToString env.pingToJson
          EWebSocketMessageType.Ping PingPayload)) s)

/-- Source: `UBasicWebSocket::SendMessage(FString)`. -/
def SendMessage (env : Env) (MessageString : String) (s : Session) : Outcome :=
  let s := emit (.call .SendMessage) s
  if !s.bWantToConnect then
    .returned (DisconnectFromServer s)
  else
    let s := { s with MessageOutQueue := s.MessageOutQueue ++ [MessageString] }
    FlushMessageOutQueue env s

/-- Source: `UBasicWebSocket::SendMessage(EWebSocketMessageType)`, the form without
a payload. -/
def SendMessageType (env : Env) (MessageType : EWebSocketMessageType) (s : Session) :
    Outcome :=
  SendMessage env (WSMessageTypeEnumToString MessageType ++ "\n\x7b\x7d") s

/-- Source: the template `UBasicWebSocket::SendMessage(MessageType, MessageData)`. -/
def SendMessageData {α : Type} (toJson : α → String) (env : Env)
    (MessageType : EWebSocketMessageType) (MessageData : α) (s : Session) : Outcome :=
  SendMessage env (ConvertMessageToString toJson MessageType MessageData) s

/-- Source: `UBasicWebSocket::RequestAuthentication`. -/
def RequestAuthentication (env : Env) (Payload : FRequestAuthenticationPayload)
    (s : Session) : Outcome :=
  let s := emit (.call .RequestAuthentication) s
  SendMessageData env.authToJson env EWebSocketMessageType.RequestAuthentication Payload s

/-- The number of low bits a magnitude loses when it is cut down to 53 significant
bits; `fuel` bounds the search and 64 is enough for a 64 bit tick count. -/
def mantissaShift : Nat → Nat → Nat
  | 0, _ => 0
  | fuel + 1, a => if a < 2 ^ 53 then 0 else mantissaShift fuel (a / 2) + 1

/-- The value of `(double)Ticks` for a 64 bit tick count: the count itself when its
magnitude is below 2^53, else the count rounded to 53 significant bits, to nearest and
to even on a tie.  The value is always a whole number. -/
def int64ToDouble (Ticks : Int) : Int :=
  let a := Ticks.natAbs
  if a < 2 ^ 53 then Ticks
  else
    let e := mantissaShift 64 a
    let q := a / 2 ^ e
    let r := a % 2 ^ e
    let half := 2 ^ (e - 1)
    let q' := if r < half then q else if half < r then q + 1 else if q % 2 = 0 then q else q + 1
    (if Ticks < 0 then -1 else 1) * ((q' * 2 ^ e : Nat) : Int)

/-- The expression `Span / 2` on an `FTimespan`, which is
`FTimespan::operator/(double)`: `(int64)((double)Ticks / 2.0)`.  The quotient of the
double by two is exact, and the cast back truncates toward zero. -/
def TimespanHalf (Ticks : Int) : Int :=
  Int.tdiv (int64ToDouble Ticks) 2

/-- Source: `UBasicWebSocket::HandlePongMessage`. -/
def HandlePongMessage (env : Env) (MessageDataString : String) (s : Session) : Session :=
  let s := emit (.call .HandlePongMessage) s
  if !s.bWantToConnect then
    DisconnectFromServer s
  else
    let PongData := env.jsonToPong MessageDataString
    let CurrentTime := env.now
    let s := { s with LatencyEstimate := TimespanHalf (CurrentTime - PongData.PingTime) }
    { s with ServerClockOffset := PongData.PongTime - (PongData.PingTime + s.LatencyEstimate) }

/-- Source: `UBasicWebSocket::PlayerAuthenticatedDelegate`. -/
def PlayerAuthenticatedDelegate (env : Env) (_Payload : FPlayerAuthenticatedPayload)
    (s : Session) : Outcome :=
  let s := emit (.call .PlayerAuthenticatedDelegate) s
  if !s.bWantToConnect then
    .returned (DisconnectFromServer s)
  else
    let s := { s with bIsAuthenticated := true }
    (PingServer env s).andThen (FlushMessageOutQueue env)

/-- Invocation of the bindings of `PlayerAuthenticatedDelegate` that the delegate
held when the broadcast started, one after the other. -/
def invokeAuthDelegates (env : Env) (Payload : FPlayerAuthenticatedPayload) :
    Nat → Session → Outcome
  | 0, s => .returned s
  | n + 1, s =>
    (PlayerAuthenticatedDelegate env Payload s).andThen (invokeAuthDelegates env Payload n)

/-- Source: `BroadcastMessageEvent<FPlayerAuthenticatedPayload>(OnPlayerAuthenticated, ..)`:
the payload is read from JSON and broadcast to outside observers and to the bound
`PlayerAuthenticatedDelegate`. -/
def BroadcastPlayerAuthenticated (env : Env) (MessageDataString : String) (s : Session) :
    Outcome :=
  let MessageData := env.jsonToPlayerAuthenticated MessageDataString
  let s := emit (.playerAuthenticated MessageData) s
  invokeAuthDelegates env MessageData s.authDelegates s

/-- The result of `FString::Len`: the number of UTF-16 code units of the text, two for
every character outside the basic plane. -/
def FStringLen (s : String) : Int :=
  ((s.data.map (fun c => if c.toNat < 65536 then 1 else 2)).sum : Nat)

/-- Source: `UBasicWebSocket::HandleInboundMessage`. -/
def HandleInboundMessage (env : Env) (Message : String) (s : Session) : Outcome :=
  let s := emit (.call .HandleInboundMessage) s
  if !s.bWantToConnect then
    .returned (DisconnectFromServer s)
  else
    let s := { s with ConnectionIsLive := true }
    let s := { s with LastStringMessageLength := FStringLen Message }
    let MessageTypeString := (Split Message).1
    let MessageDataString := (Split Message).2
    let MessageType := WSMessageTypeStringToEnum MessageTypeString
    let s := emit (.messageReceived Message env.now) s
    if MessageType = EWebSocketMessageType.PlayerAuthenticated then
      BroadcastPlayerAuthenticated env MessageDataString s
    else if MessageType = EWebSocketMessageType.Pong then
      FlushMessageOutQueue env (HandlePongMessage env MessageDataString s)
    else if MessageType = EWebSocketMessageType.WarningMessage then
      .returned (emit (.warningMessage MessageDataString) s)
    else if MessageType = EWebSocketMessageType.ErrorMessage then
      .returned (emit (.errorMessage MessageDataString) s)
    else
      .returned s

/-- Source: `UBasicWebSocket::BeginDestroy`. -/
def BeginDestroy (s : Session) : Session :=
  let s := emit (.call .BeginDestroy) s
  let s := DisconnectFromServer s
  { s with ShuttingDown := true }

/-! ## Transport event handlers bound in `Initialise` -/

/-- Source: the lambda bound to `Socket->OnConnected()`. -/
def OnConnected (env : Env) (s : Session) : Session :=
  if s.ShuttingDown then s
  else
    let Payload : FRequestAuthenticationPayload :=
      { PlayerName := s.PlayerName, PlayerID := s.PlayerID, GameVersion := s.GameVersion }
    match s.Socket with
    | some _ =>
      emit (.send (ConvertMessageToString env.authToJson
        EWebSocketMessageType.RequestAuthentication Payload)) s
    | none => s

/-- Source: the lambda bound to `Socket->OnConnectionError()`. -/
def OnConnectionError (Error : String) (s : Session) : Session :=
  emit (.internalError ("Websocket connection Error: " ++ Error)) s

/-- Source: the lambda bound to `Socket->OnClosed()`. -/
def OnClosed (_StatusCode : Int) (_Reason : String) (_bWasClean : Bool) (s : Session) :
    Session :=
  if s.bIsAuthenticated then { s with bIsAuthenticated := false } else s

/-- Source: the lambda bound to `Socket->OnRawMessage()`; it only logs. -/
def OnRawMessage (s : Session) : Session := s

/-! ## Operations and runs -/

/-- Something the transport does: it delivers an event to the handlers bound on the
current socket, or its connection comes up or goes down. -/
inductive TransportEvent
  | connected
  | connectionError (Error : String)
  | closed (StatusCode : Int) (Reason : String) (bWasClean : Bool)
  | message (Message : String)
  | rawMessage
  | connectivity (up : Bool)
  deriving DecidableEq, Repr

/-- Delivery of a transport event: the handler runs when the socket exists and still
has it bound. -/
def deliver (env : Env) (ev : TransportEvent) (s : Session) : Outcome :=
  match s.Socket with
  | none => .returned s
  | some sock =>
    match ev with
    | .connected => if sock.onConnected then .returned (OnConnected env s) else .returned s
    | .connectionError Error =>
      if sock.onConnectionError then .returned (OnConnectionError Error s) else .returned s
    | .closed StatusCode Reason bWasClean =>
      if sock.onClosed then .returned (OnClosed StatusCode Reason bWasClean s)
      else .returned s
    | .message Message =>
      if sock.onMessage then HandleInboundMessage env Message s else .returned s
    | .rawMessage => if sock.onRawMessage then .returned (OnRawMessage s) else .returned s
    | .connectivity up => .returned { s with Socket := some { sock with connected := up } }

/-- One step of a session history: a call of a public member function by the
application, or a transport event. -/
inductive Op
  | Initialise (PlayerNameIn PlayerIDIn GameVersionIn : String)
  | SendMessage (MessageString : String)
  | SendMessageType (MessageType : EWebSocketMessageType)
  /-- The payload is given by its JSON text. -/
  | SendMessageData (MessageType : EWebSocketMessageType) (json : String)
  | RequestAuthentication (Payload : FRequestAuthenticationPayload)
  | PingServer
  | FlushMessageOutQueue
  | DisconnectFromServer
  | BeginDestroy
  | HandleInboundMessage (Message : String)
  | transport (ev : TransportEvent)
  deriving DecidableEq, Repr

/-- Run one step. -/
def step (env : Env) (op : Op) (s : Session) : Outcome :=
  match op with
  | .Initialise n i v => Initialise env n i v s
  | .SendMessage m => SendMessage env m s
  | .SendMessageType t => SendMessageType env t s
  | .SendMessageData t json => SendMessageData id env t json s
  | .RequestAuthentication p => RequestAuthentication env p s
  | .PingServer => PingServer env s
  | .FlushMessageOutQueue => FlushMessageOutQueue env s
  | .DisconnectFromServer => .returned (DisconnectFromServer s)
  | .BeginDestroy => .returned (BeginDestroy s)
  | .HandleInboundMessage m => HandleInboundMessage env m s
  | .transport ev => deliver env ev s

/-- Run a history; it ends at the first fault. -/
def run : List (Env × Op) → Session → Outcome
  | [], s => .returned s
  | (env, op) :: rest, s => (step env op s).andThen (run rest)

/-! ## Reading the trace -/

/-- The messages handed to `Socket->Send`, in order. -/
def sends (t : List Effect) : List String :=
  t.filterMap (fun e => match e with | .send m => some m | _ => none)

/-- The messages announced on `OnMessageSent`, in order: the entries sent from the
queue. -/
def sentFromQueue (t : List Effect) : List String :=
  t.filterMap (fun e => match e with | .messageSent m _ => some m | _ => none)

/-- The member functions entered, in order. -/
def calls (t : List Effect) : List Fn :=
  t.filterMap (fun e => match e with | .call f => some f | _ => none)

/-- The number of `Socket->Connect` requests. -/
def connects (t : List Effect) : Nat :=
  t.count .connect

/-- The messages announced on `OnMessageReceived`, in order. -/
def received (t : List Effect) : List String :=
  t.filterMap (fun e => match e with | .messageReceived m _ => some m | _ => none)

/-- The messages sent from the queue so far, followed by the entries still queued. -/
def ledger (s : Session) : List String :=
  sentFromQueue s.trace ++ s.MessageOutQueue

/-- What a flush of queue content `q` appends to the trace after its entry mark. -/
def queueEffects (env : Env) (q : List String) : List Effect :=
  q.flatMap (fun m => [.messageSent m env.now, .send m])

/-- The wire text a step hands to `SendMessage(FString)`, when the step is a send. -/
def Op.submitted (env : Env) : Op → Option String
  | .SendMessage m => some m
  | .SendMessageType t => some (WSMessageTypeEnumToString t ++ "\n\x7b\x7d")
  | .SendMessageData t json => some (ConvertMessageToString id t json)
  | .RequestAuthentication p =>
    some (ConvertMessageToString env.authToJson EWebSocketMessageType.RequestAuthentication p)
  | _ => none

/-- What one step adds to the queue according to the specification: the submitted
text, when the session wants to be connected at that moment. -/
def enqueuedBy (env : Env) (op : Op) (s : Session) : List String :=
  match op.submitted env with
  | some m => if s.bWantToConnect then [m] else []
  | none => []

/-- The messages a history submits while the session wants to be connected, in
order of submission. -/
def enqueued : List (Env × Op) → Session → List String
  | [], _ => []
  | (env, op) :: rest, s =>
    enqueuedBy env op s ++
      (match step env op s with
       | .returned s' => enqueued rest s'
       | .faulted _ => [])

/-- A history made of transport events only. -/
def eventHistory (evs : List (Env × TransportEvent)) : List (Env × Op) :=
  evs.map (fun p => (p.1, Op.transport p.2))

/-- The kind `HandleInboundMessage` reads off a raw message. -/
def kindOf (Message : String) : EWebSocketMessageType :=
  WSMessageTypeStringToEnum (Split Message).1

/-- Whether a step is one of the forms of `SendMessage`. -/
def Op.isSend : Op → Bool
  | .SendMessage _ => true
  | .SendMessageType _ => true
  | .SendMessageData _ _ => true
  | _ => false

/-- The state of a session that is being destroyed. -/
def Destroyed (s : Session) : Prop :=
  s.ShuttingDown = true ∧ s.bWantToConnect = false ∧ s.bIsAuthenticated = false

/-- The state of `HandleInboundMessage` when it reaches its `switch`: the message has
been counted as a sign of life and announced on `OnMessageReceived`. -/
def accepted (env : Env) (Message : String) (s : Session) : Session :=
  emit (.messageReceived Message env.now)
    { emit (.call .HandleInboundMessage) s with
      ConnectionIsLive := true, LastStringMessageLength := FStringLen Message }

/-! ## Sample surroundings for concrete runs -/

/-- Surroundings in which the clock reads 100 ms, the factory succeeds, and every pong
echoes ping time 0 with server pong time 120 ms. -/
def Env.sample : Env where
  now := 1000000
  moduleLoaded := true
  moduleLoadedAfterLoad := true
  createWebSocket := true
  authToJson := fun p => p.PlayerName ++ "/" ++ p.PlayerID ++ "/" ++ p.GameVersion
  pingToJson := fun _ => "ping"
  jsonToPong := fun _ => { PingTime := 0, PongTime := 1200000 }
  jsonToPlayerAuthenticated := fun _ => { PlayerName := "", PlayerID := "" }

/-- A session that has been initialised and whose transport has connected. -/
def Session.sample : Session :=
  (run [(Env.sample, Op.Initialise "name" "id" "1"),
        (Env.sample, Op.transport (TransportEvent.connectivity true))] Session.fresh).state

/-- A session with two messages held in the queue and liveness confirmed again. -/
def Session.sampleQueued : Session :=
  (run [(Env.sample, Op.PingServer), (Env.sample, Op.SendMessage "m1"),
        (Env.sample, Op.SendMessage "m2"),
        (Env.sample, Op.transport (TransportEvent.message "WarningMessage\nw"))]
    Session.sample).state

/-! ## Histories, observations and further samples -/

/-- Whether a step is a call of `Initialise` by the application. -/
def Op.isInitialise : Op → Bool
  | .Initialise _ _ _ => true
  | _ => false

/-- Whether a step is a call of `BeginDestroy`. -/
def Op.isBeginDestroy : Op → Bool
  | .BeginDestroy => true
  | _ => false

/-- A history in which the application does not call `Initialise` once it has called
`BeginDestroy`. -/
def noInitialiseAfterDestroy : List (Env × Op) → Bool
  | [] => true
  | (_, op) :: rest =>
    if op.isBeginDestroy then rest.all (fun p => !p.2.isInitialise)
    else noInitialiseAfterDestroy rest

/-- The payload of the ping that `PingServer` builds in state `s`. -/
def pingPayload (env : Env) (s : Session) : FPingPayload :=
  { PingTime := env.now
    PingMs := GetMillisecond env.now
    CurrentLatencyEstimate := s.LatencyEstimate
    CurrentServerTimeOffsetEstimate := s.ServerClockOffset }

/-- The identity the session holds: player name, player id and game version. -/
def identity (s : Session) : FRequestAuthenticationPayload :=
  { PlayerName := s.PlayerName, PlayerID := s.PlayerID, GameVersion := s.GameVersion }

/-- The state in which `PingServer` stops. -/
def afterPing (env : Env) (s : Session) : Session :=
  (PingServer env s).state

/-- The texts a history of sends submits, in order. -/
def submittedTexts (h : List (Env × Op)) : List String :=
  h.filterMap (fun p => p.2.submitted p.1)

/-- The implicit invariant: an authenticated session wants to be connected. -/
def AuthenticatedImpliesWanted (s : Session) : Prop :=
  s.bIsAuthenticated = true → s.bWantToConnect = true

@[simp] theorem emit_trace (e : Effect) (s : Session) : (emit e s).trace = s.trace ++ [e] := rfl

@[simp] theorem emit_ServerURL (e : Effect) (s : Session) : (emit e s).ServerURL = s.ServerURL := rfl

@[simp] theorem emit_ServerProtocol (e : Effect) (s : Session) : (emit e s).ServerProtocol = s.ServerProtocol := rfl

@[simp] theorem emit_bIsAuthenticated (e : Effect) (s : Session) : (emit e s).bIsAuthenticated = s.bIsAuthenticated := rfl

@[simp] theorem emit_Socket (e : Effect) (s : Session) : (emit e s).Socket = s.Socket := rfl

@[simp] theorem emit_PlayerName (e : Effect) (s : Session) : (emit e s).PlayerName = s.PlayerName := rfl

@[simp] theorem emit_PlayerID (e : Effect) (s : Session) : (emit e s).PlayerID = s.PlayerID := rfl

@[simp] theorem emit_GameVersion (e : Effect) (s : Session) : (emit e s).GameVersion = s.GameVersion := rfl

@[simp] theorem emit_ConnectionIsLive (e : Effect) (s : Session) : (emit e s).ConnectionIsLive = s.ConnectionIsLive := rfl

@[simp] theorem emit_bWantToConnect (e : Effect) (s : Session) : (emit e s).bWantToConnect = s.bWantToConnect := rfl

@[simp] theorem emit_LatencyEstimate (e : Effect) (s : Session) : (emit e s).LatencyEstimate = s.LatencyEstimate := rfl

@[simp] theorem emit_ServerClockOffset (e : Effect) (s : Session) : (emit e s).ServerClockOffset = s.ServerClockOffset := rfl

@[simp] theorem emit_LastStringMessageLength (e : Effect) (s : Session) : (emit e s).LastStringMessageLength = s.LastStringMessageLength := rfl

@[simp] theorem emit_OnSocketClosedLambdaFunctionHandle (e : Effect) (s : Session) : (emit e s).OnSocketClosedLambdaFunctionHandle = s.OnSocketClosedLambdaFunctionHandle := rfl

@[simp] theorem emit_ShuttingDown (e : Effect) (s : Session) : (emit e s).ShuttingDown = s.ShuttingDown := rfl

@[simp] theorem emit_MessageOutQueue (e : Effect) (s : Session) : (emit e s).MessageOutQueue = s.MessageOutQueue := rfl

@[simp] theorem state_returned (s : Session) : (Outcome.returned s).state = s := rfl

@[simp] theorem state_faulted (s : Session) : (Outcome.faulted s).state = s := rfl

@[simp] theorem andThen_returned (s : Session) (f : Session → Outcome) :
    (Outcome.returned s).andThen f = f s := rfl

@[simp] theorem andThen_faulted (s : Session) (f : Session → Outcome) :
    (Outcome.faulted s).andThen f = .faulted s := rfl

@[simp] theorem andThen_returned_right (o : Outcome) : o.andThen .returned = o := by
  cases o <;> rfl

/-- An observation that every continuation preserves is preserved by sequencing. -/
theorem andThen_preserves {α : Type} (g : Session → α) (o : Outcome) (f : Session → Outcome)
    (h : ∀ s, g (f s).state = g s) : g (o.andThen f).state = g o.state := by
  cases o with
  | returned s => exact h s
  | faulted s => rfl

/-! ## Reading the trace: basic facts -/

theorem sends_append (a b : List Effect) : sends (a ++ b) = sends a ++ sends b := by
  simp [sends, List.filterMap_append]

theorem sentFromQueue_append (a b : List Effect) :
    sentFromQueue (a ++ b) = sentFromQueue a ++ sentFromQueue b := by
  simp [sentFromQueue, List.filterMap_append]

theorem connects_append (a b : List Effect) : connects (a ++ b) = connects a + connects b := by
  simp [connects, List.count_append]

theorem received_append (a b : List Effect) : received (a ++ b) = received a ++ received b := by
  simp [received, List.filterMap_append]

theorem sends_queueEffects (env : Env) (q : List String) : sends (queueEffects env q) = q := by
  induction q with
  | nil => rfl
  | cons m rest ih =>
    have : sends (queueEffects env (m :: rest)) = m :: sends (queueEffects env rest) := by
      simp [queueEffects, sends]
    rw [this, ih]

theorem sentFromQueue_queueEffects (env : Env) (q : List String) :
    sentFromQueue (queueEffects env q) = q := by
  induction q with
  | nil => rfl
  | cons m rest ih =>
    have : sentFromQueue (queueEffects env (m :: rest))
        = m :: sentFromQueue (queueEffects env rest) := by
      simp [queueEffects, sentFromQueue]
    rw [this, ih]

theorem flushLoop_eq (env : Env) (q : List String) (s : Session) :
    flushLoop env q s =
      { s with MessageOutQueue := [], trace := s.trace ++ queueEffects env q } := by
  induction q generalizing s with
  | nil => simp [flushLoop, queueEffects]
  | cons m rest ih => simp [flushLoop, ih, emit, queueEffects]

theorem flush_live_eq (env : Env) (s : Session) (sock : Transport)
    (hwant : s.bWantToConnect = true) (hsock : s.Socket = some sock)
    (hconn : sock.connected = true) (hlive : s.ConnectionIsLive = true) :
    FlushMessageOutQueue env s = .returned
      { s with MessageOutQueue := [],
               trace := s.trace ++ Effect.call Fn.FlushMessageOutQueue ::
                 queueEffects env s.MessageOutQueue } := by
  simp [FlushMessageOutQueue, emit, hwant, hsock, hconn, hlive, flushLoop_eq]

theorem Initialise_queue (env : Env) (n i v : String) (s : Session) :
    (Initialise env n i v s).state.MessageOutQueue = s.MessageOutQueue := by
  unfold Initialise
  cases env.createWebSocket <;> cases env.moduleLoaded <;> cases env.moduleLoadedAfterLoad <;> rfl

theorem Initialise_sends (env : Env) (n i v : String) (s : Session) :
    sends (Initialise env n i v s).state.trace = sends s.trace := by
  unfold Initialise
  cases env.createWebSocket <;> cases env.moduleLoaded <;> cases env.moduleLoadedAfterLoad <;>
    simp [sends]

theorem Disconnect_queue (s : Session) :
    (DisconnectFromServer s).MessageOutQueue = s.MessageOutQueue := by
  simp only [DisconnectFromServer]
  repeat' split
  all_goals rfl

theorem Disconnect_sends (s : Session) :
    sends (DisconnectFromServer s).trace = sends s.trace := by
  simp only [DisconnectFromServer]
  repeat' split
  all_goals simp [sends]

theorem Flush_not_live (env : Env) (s : Session) (hlive : s.ConnectionIsLive = false) :
    sends (FlushMessageOutQueue env s).state.trace = sends s.trace ∧
    (FlushMessageOutQueue env s).state.MessageOutQueue = s.MessageOutQueue := by
  simp only [FlushMessageOutQueue]
  repeat' split
  all_goals simp_all [Disconnect_sends, Disconnect_queue, Initialise_sends, Initialise_queue]
  all_goals simp [sends]

/-! ## Queue conservation, function by function -/

@[simp] theorem ledger_emit_call (f : Fn) (s : Session) :
    ledger (emit (.call f) s) = ledger s := by
  simp [ledger, sentFromQueue]

theorem Initialise_ledger (env : Env) (n i v : String) (s : Session) :
    ledger (Initialise env n i v s).state = ledger s := by
  unfold Initialise
  cases env.createWebSocket <;> cases env.moduleLoaded <;> cases env.moduleLoadedAfterLoad <;>
    simp [ledger, sentFromQueue]

theorem Disconnect_ledger (s : Session) : ledger (DisconnectFromServer s) = ledger s := by
  simp only [DisconnectFromServer]
  repeat' split
  all_goals simp [ledger, sentFromQueue]

theorem flushLoop_ledger (env : Env) (q : List String) (s : Session) :
    ledger (flushLoop env q s) = sentFromQueue s.trace ++ q := by
  simp [flushLoop_eq, ledger, sentFromQueue_append, sentFromQueue_queueEffects]

theorem Flush_ledger (env : Env) (s : Session) :
    ledger (FlushMessageOutQueue env s).state = ledger s := by
  simp only [FlushMessageOutQueue]
  repeat' split
  all_goals simp [Disconnect_ledger, Initialise_ledger, flushLoop_ledger]
  all_goals simp [ledger, sentFromQueue]

theorem Ping_ledger (env : Env) (s : Session) :
    ledger (PingServer env s).state = ledger s := by
  simp only [PingServer]
  repeat' split
  all_goals simp [Disconnect_ledger, Initialise_ledger]
  all_goals simp [ledger, sentFromQueue]

theorem SendMessage_ledger (env : Env) (m : String) (s : Session) :
    ledger (SendMessage env m s).state
      = ledger s ++ (if s.bWantToConnect then [m] else []) := by
  simp only [SendMessage]
  split
  · simp_all [Disconnect_ledger]
  · simp_all [Flush_ledger]
    simp [ledger, sentFromQueue]

theorem HandlePong_ledger (env : Env) (d : String) (s : Session) :
    ledger (HandlePongMessage env d s) = ledger s := by
  simp only [HandlePongMessage]
  split
  · simp [Disconnect_ledger]
  · simp [ledger, sentFromQueue]

theorem PlayerAuthenticatedDelegate_ledger (env : Env) (p : FPlayerAuthenticatedPayload)
    (s : Session) : ledger (PlayerAuthenticatedDelegate env p s).state = ledger s := by
  simp only [PlayerAuthenticatedDelegate]
  split
  · simp [Disconnect_ledger]
  · rw [andThen_preserves ledger _ _ (Flush_ledger env), Ping_ledger]
    simp [ledger, sentFromQueue]

theorem invokeAuthDelegates_ledger (env : Env) (p : FPlayerAuthenticatedPayload) (n : Nat)
    (s : Session) : ledger (invokeAuthDelegates env p n s).state = ledger s := by
  induction n generalizing s with
  | zero => rfl
  | succ n ih =>
    simp only [invokeAuthDelegates]
    rw [andThen_preserves ledger _ _ ih, PlayerAuthenticatedDelegate_ledger]

theorem HandleInbound_ledger (env : Env) (m : String) (s : Session) :
    ledger (HandleInboundMessage env m s).state = ledger s := by
  simp only [HandleInboundMessage, BroadcastPlayerAuthenticated]
  repeat' split
  all_goals simp [Disconnect_ledger, invokeAuthDelegates_ledger, Flush_ledger,
    HandlePong_ledger]
  all_goals simp [ledger, sentFromQueue]

theorem BeginDestroy_ledger (s : Session) : ledger (BeginDestroy s) = ledger s := by
  have h := Disconnect_ledger (emit (.call .BeginDestroy) s)
  simp only [ledger_emit_call] at h
  simpa [BeginDestroy, ledger] using h

theorem deliver_ledger (env : Env) (ev : TransportEvent) (s : Session) :
    ledger (deliver env ev s).state = ledger s := by
  simp only [deliver, OnConnected, OnConnectionError, OnClosed, OnRawMessage]
  repeat' split
  all_goals simp [HandleInbound_ledger]
  all_goals simp [ledger, sentFromQueue]

theorem step_ledger (env : Env) (op : Op) (s : Session) :
    ledger (step env op s).state = ledger s ++ enqueuedBy env op s := by
  cases op <;>
    simp [step, enqueuedBy, Op.submitted, SendMessageType, SendMessageData,
      RequestAuthentication, SendMessage_ledger, Initialise_ledger, Ping_ledger, Flush_ledger,
      Disconnect_ledger, BeginDestroy_ledger, HandleInbound_ledger, deliver_ledger]

theorem run_ledger (h : List (Env × Op)) (s : Session) :
    ledger (run h s).state = ledger s ++ enqueued h s := by
  induction h generalizing s with
  | nil => simp [run, enqueued]
  | cons a rest ih =>
    obtain ⟨env, op⟩ := a
    simp only [run, enqueued]
    cases hstep : step env op s with
    | returned s' =>
      have := step_ledger env op s
      rw [hstep] at this
      simp only [state_returned] at this
      simp [ih, this, List.append_assoc]
    | faulted s' =>
      have := step_ledger env op s
      rw [hstep] at this
      simpa using this

/-! ## The codec -/

theorem splitAtLineFeed_append (a p : List Char) (h : Char.ofNat 10 ∉ a) :
    splitAtLineFeed (a ++ Char.ofNat 10 :: p) = some (a, p) := by
  induction a with
  | nil => simp [splitAtLineFeed]
  | cons c cs ih =>
    have hc : c ≠ Char.ofNat 10 := by
      intro hc
      exact h (by simp [hc])
    have hcs : Char.ofNat 10 ∉ cs := by
      intro hcs
      exact h (by simp [hcs])
    simp [splitAtLineFeed, hc, ih hcs]

theorem Split_append (a p : String) (h : Char.ofNat 10 ∉ a.data) :
    Split (a ++ "\n" ++ p) = (a, p) := by
  have hd : (a ++ "\n" ++ p).data = a.data ++ Char.ofNat 10 :: p.data := by
    simp [String.data_append]
  simp [Split, hd, splitAtLineFeed_append a.data p.data h]

theorem Split_kind (k : EWebSocketMessageType) (hk : k ∈ definedKinds) (p : String) :
    Split (WSMessageTypeEnumToString k ++ "\n" ++ p) = (WSMessageTypeEnumToString k, p) := by
  apply Split_append
  simp only [definedKinds, List.mem_cons, List.mem_singleton, List.not_mem_nil, or_false] at hk
  rcases hk with h | h | h | h | h | h | h <;> subst h <;> decide

theorem lookup_kind (k : EWebSocketMessageType) (hk : k ∈ definedKinds) :
    WSMessageTypeStringToEnum (WSMessageTypeEnumToString k) = k := by
  simp only [definedKinds, List.mem_cons, List.mem_singleton, List.not_mem_nil, or_false] at hk
  rcases hk with h | h | h | h | h | h | h <;> subst h <;> decide

/-! ## Disconnecting and shutting down -/

theorem HandlePong_want (env : Env) (d : String) (s : Session) (hwant : s.bWantToConnect = true) :
    HandlePongMessage env d s =
      { emit (.call .HandlePongMessage) s with
        LatencyEstimate := TimespanHalf (env.now - (env.jsonToPong d).PingTime)
        ServerClockOffset := (env.jsonToPong d).PongTime -
          ((env.jsonToPong d).PingTime + TimespanHalf (env.now - (env.jsonToPong d).PingTime)) } := by
  simp [HandlePongMessage, hwant, emit]


theorem Disconnect_want (s : Session) : (DisconnectFromServer s).bWantToConnect = false := by
  simp only [DisconnectFromServer]
  repeat' split
  all_goals rfl

theorem Disconnect_auth (s : Session) : (DisconnectFromServer s).bIsAuthenticated = false := by
  simp only [DisconnectFromServer]
  repeat' split
  all_goals rfl

theorem SendMessage_not_wanted (env : Env) (m : String) (s : Session)
    (h : s.bWantToConnect = false) :
    SendMessage env m s = .returned (DisconnectFromServer (emit (.call .SendMessage) s)) := by
  simp [SendMessage, h]

theorem step_send_not_wanted (env : Env) (op : Op) (s : Session) (hop : op.isSend = true)
    (h : s.bWantToConnect = false) :
    step env op s = .returned (DisconnectFromServer (emit (.call .SendMessage) s)) := by
  cases op <;> simp [Op.isSend] at hop <;>
    simp [step, SendMessageType, SendMessageData, SendMessage_not_wanted, h]

theorem Disconnect_calls (s : Session) :
    calls (DisconnectFromServer s).trace = calls s.trace ++ [Fn.DisconnectFromServer] := by
  simp only [DisconnectFromServer]
  repeat' split
  all_goals simp [calls]

theorem Disconnect_connects (s : Session) :
    connects (DisconnectFromServer s).trace = connects s.trace := by
  simp only [DisconnectFromServer]
  repeat' split
  all_goals simp [connects]

theorem Disconnect_live (s : Session) :
    (DisconnectFromServer s).ConnectionIsLive = s.ConnectionIsLive := by
  simp only [DisconnectFromServer]
  repeat' split
  all_goals rfl

theorem Disconnect_shuttingDown (s : Session) :
    (DisconnectFromServer s).ShuttingDown = s.ShuttingDown := by
  simp only [DisconnectFromServer]
  repeat' split
  all_goals rfl

theorem run_sends_not_wanted (h : List (Env × Op)) (s : Session)
    (hops : ∀ p ∈ h, p.2.isSend = true) (hw : s.bWantToConnect = false)
    (ha : s.bIsAuthenticated = false) :
    (run h s).isReturned = true ∧
    sends (run h s).state.trace = sends s.trace ∧
    (run h s).state.MessageOutQueue = s.MessageOutQueue ∧
    (run h s).state.bWantToConnect = false ∧
    (run h s).state.bIsAuthenticated = false ∧
    calls (run h s).state.trace
      = calls s.trace ++ h.flatMap (fun _ => [Fn.SendMessage, Fn.DisconnectFromServer]) := by
  induction h generalizing s with
  | nil => simp [run, Outcome.isReturned, hw, ha]
  | cons a rest ih =>
    obtain ⟨env, op⟩ := a
    have hop : op.isSend = true := hops (env, op) (by simp)
    have hrest : ∀ p ∈ rest, p.2.isSend = true := fun p hp => hops p (by simp [hp])
    simp only [run, step_send_not_wanted env op s hop hw, andThen_returned]
    have := ih (DisconnectFromServer (emit (.call .SendMessage) s)) hrest
      (Disconnect_want _) (Disconnect_auth _)
    obtain ⟨h1, h2, h3, h4, h5, h6⟩ := this
    refine ⟨h1, ?_, ?_, h4, h5, ?_⟩
    · rw [h2, Disconnect_sends]; simp [sends]
    · rw [h3, Disconnect_queue]; simp
    · rw [h6, Disconnect_calls]; simp [calls]

theorem BeginDestroy_destroyed (s : Session) : Destroyed (BeginDestroy s) := by
  simp [Destroyed, BeginDestroy, Disconnect_want, Disconnect_auth]

theorem deliver_destroyed (env : Env) (ev : TransportEvent) (s : Session) (h : Destroyed s) :
    (deliver env ev s).isReturned = true ∧
    Destroyed (deliver env ev s).state ∧
    sends (deliver env ev s).state.trace = sends s.trace ∧
    connects (deliver env ev s).state.trace = connects s.trace := by
  obtain ⟨h1, h2, h3⟩ := h
  simp only [deliver, OnConnected, OnConnectionError, OnClosed, OnRawMessage,
    HandleInboundMessage]
  repeat' split
  all_goals simp_all [Destroyed, Outcome.isReturned, Disconnect_want, Disconnect_auth,
    Disconnect_sends, Disconnect_connects, Disconnect_shuttingDown]
  all_goals simp [sends, connects]

theorem run_events_destroyed (evs : List (Env × TransportEvent)) (s : Session)
    (h : Destroyed s) :
    (run (eventHistory evs) s).isReturned = true ∧
    Destroyed (run (eventHistory evs) s).state ∧
    sends (run (eventHistory evs) s).state.trace = sends s.trace ∧
    connects (run (eventHistory evs) s).state.trace = connects s.trace := by
  induction evs generalizing s with
  | nil => exact ⟨rfl, h, rfl, rfl⟩
  | cons a rest ih =>
    obtain ⟨env, ev⟩ := a
    obtain ⟨d1, d2, d3, d4⟩ := deliver_destroyed env ev s h
    cases hd : deliver env ev s with
    | faulted s' => simp [hd, Outcome.isReturned] at d1
    | returned s' =>
      rw [hd] at d2 d3 d4
      simp only [state_returned] at d2 d3 d4
      obtain ⟨i1, i2, i3, i4⟩ := ih s' d2
      have hrun : run (eventHistory ((env, ev) :: rest)) s = run (eventHistory rest) s' := by
        simp [eventHistory, run, step, hd]
      rw [hrun]
      exact ⟨i1, i2, i3.trans d3, i4.trans d4⟩

/-! ## Inbound messages -/

@[simp] theorem flushLoop_ServerURL (env : Env) (q : List String) (s : Session) :
    (flushLoop env q s).ServerURL = s.ServerURL := by
  rw [flushLoop_eq]

@[simp] theorem flushLoop_ServerProtocol (env : Env) (q : List String) (s : Session) :
    (flushLoop env q s).ServerProtocol = s.ServerProtocol := by
  rw [flushLoop_eq]

@[simp] theorem flushLoop_bIsAuthenticated (env : Env) (q : List String) (s : Session) :
    (flushLoop env q s).bIsAuthenticated = s.bIsAuthenticated := by
  rw [flushLoop_eq]

@[simp] theorem flushLoop_Socket (env : Env) (q : List String) (s : Session) :
    (flushLoop env q s).Socket = s.Socket := by
  rw [flushLoop_eq]

@[simp] theorem flushLoop_PlayerName (env : Env) (q : List String) (s : Session) :
    (flushLoop env q s).PlayerName = s.PlayerName := by
  rw [flushLoop_eq]

@[simp] theorem flushLoop_PlayerID (env : Env) (q : List String) (s : Session) :
    (flushLoop env q s).PlayerID = s.PlayerID := by
  rw [flushLoop_eq]

@[simp] theorem flushLoop_GameVersion (env : Env) (q : List String) (s : Session) :
    (flushLoop env q s).GameVersion = s.GameVersion := by
  rw [flushLoop_eq]

@[simp] theorem flushLoop_ConnectionIsLive (env : Env) (q : List String) (s : Session) :
    (flushLoop env q s).ConnectionIsLive = s.ConnectionIsLive := by
  rw [flushLoop_eq]

@[simp] theorem flushLoop_bWantToConnect (env : Env) (q : List String) (s : Session) :
    (flushLoop env q s).bWantToConnect = s.bWantToConnect := by
  rw [flushLoop_eq]

@[simp] theorem flushLoop_LatencyEstimate (env : Env) (q : List String) (s : Session) :
    (flushLoop env q s).LatencyEstimate = s.LatencyEstimate := by
  rw [flushLoop_eq]

@[simp] theorem flushLoop_ServerClockOffset (env : Env) (q : List String) (s : Session) :
    (flushLoop env q s).ServerClockOffset = s.ServerClockOffset := by
  rw [flushLoop_eq]

@[simp] theorem flushLoop_LastStringMessageLength (env : Env) (q : List String) (s : Session) :
    (flushLoop env q s).LastStringMessageLength = s.LastStringMessageLength := by
  rw [flushLoop_eq]

@[simp] theorem flushLoop_OnSocketClosedLambdaFunctionHandle (env : Env) (q : List String) (s : Session) :
    (flushLoop env q s).OnSocketClosedLambdaFunctionHandle = s.OnSocketClosedLambdaFunctionHandle := by
  rw [flushLoop_eq]

@[simp] theorem flushLoop_ShuttingDown (env : Env) (q : List String) (s : Session) :
    (flushLoop env q s).ShuttingDown = s.ShuttingDown := by
  rw [flushLoop_eq]

@[simp] theorem flushLoop_authDelegates (env : Env) (q : List String) (s : Session) :
    (flushLoop env q s).authDelegates = s.authDelegates := by
  rw [flushLoop_eq]

@[simp] theorem flushLoop_MessageOutQueue (env : Env) (q : List String) (s : Session) :
    (flushLoop env q s).MessageOutQueue = [] := by
  rw [flushLoop_eq]

theorem returned_of_isReturned {o : Outcome} (h : o.isReturned = true) :
    ∃ s, o = .returned s := by
  cases o with
  | returned s => exact ⟨s, rfl⟩
  | faulted s => simp [Outcome.isReturned] at h

theorem Ping_socket (env : Env) (s : Session) (sock : Transport)
    (hwant : s.bWantToConnect = true) (hsock : s.Socket = some sock) :
    (PingServer env s).isReturned = true ∧
    (PingServer env s).state.Socket = some sock ∧
    (PingServer env s).state.bWantToConnect = true ∧
    (PingServer env s).state.bIsAuthenticated = s.bIsAuthenticated ∧
    (PingServer env s).state.ConnectionIsLive = false ∧
    (PingServer env s).state.MessageOutQueue = s.MessageOutQueue ∧
    calls (PingServer env s).state.trace = calls s.trace ++ [Fn.PingServer] := by
  simp only [PingServer]
  repeat' split
  all_goals simp_all [Outcome.isReturned]
  all_goals simp [calls]

theorem PlayerAuthenticatedDelegate_want (env : Env) (p : FPlayerAuthenticatedPayload)
    (s : Session) (hwant : s.bWantToConnect = true) :
    PlayerAuthenticatedDelegate env p s =
      (PingServer env
        { emit (.call .PlayerAuthenticatedDelegate) s with bIsAuthenticated := true }).andThen
        (FlushMessageOutQueue env) := by
  simp [PlayerAuthenticatedDelegate, hwant]

theorem HandleInbound_wanted (env : Env) (m : String) (s : Session)
    (hwant : s.bWantToConnect = true) :
    HandleInboundMessage env m s =
      if kindOf m = EWebSocketMessageType.PlayerAuthenticated then
        BroadcastPlayerAuthenticated env (Split m).2 (accepted env m s)
      else if kindOf m = EWebSocketMessageType.Pong then
        FlushMessageOutQueue env (HandlePongMessage env (Split m).2 (accepted env m s))
      else if kindOf m = EWebSocketMessageType.WarningMessage then
        .returned (emit (.warningMessage (Split m).2) (accepted env m s))
      else if kindOf m = EWebSocketMessageType.ErrorMessage then
        .returned (emit (.errorMessage (Split m).2) (accepted env m s))
      else
        .returned (accepted env m s) := by
  simp [HandleInboundMessage, hwant, kindOf, accepted]

@[simp] theorem accepted_want (env : Env) (m : String) (s : Session) :
    (accepted env m s).bWantToConnect = s.bWantToConnect := rfl

@[simp] theorem accepted_live (env : Env) (m : String) (s : Session) :
    (accepted env m s).ConnectionIsLive = true := rfl

@[simp] theorem accepted_Socket (env : Env) (m : String) (s : Session) :
    (accepted env m s).Socket = s.Socket := rfl

theorem Initialise_live_want (env : Env) (n i v : String) (s : Session) :
    (Initialise env n i v s).state.ConnectionIsLive = s.ConnectionIsLive ∧
    (Initialise env n i v s).state.bWantToConnect = true := by
  unfold Initialise
  cases env.createWebSocket <;> cases env.moduleLoaded <;> cases env.moduleLoadedAfterLoad <;>
    exact ⟨rfl, rfl⟩

theorem Ping_wanted (env : Env) (s : Session) (hwant : s.bWantToConnect = true) :
    (PingServer env s).state.ConnectionIsLive = false ∧
    (PingServer env s).state.bWantToConnect = true := by
  simp only [PingServer]
  repeat' split
  all_goals simp_all [Initialise_live_want]

theorem Flush_wanted (env : Env) (s : Session) (hwant : s.bWantToConnect = true) :
    (FlushMessageOutQueue env s).state.ConnectionIsLive = s.ConnectionIsLive ∧
    (FlushMessageOutQueue env s).state.bWantToConnect = true := by
  simp only [FlushMessageOutQueue]
  repeat' split
  all_goals simp_all [Initialise_live_want]

theorem PlayerAuthenticatedDelegate_wanted (env : Env) (p : FPlayerAuthenticatedPayload)
    (s : Session) (hwant : s.bWantToConnect = true) :
    (PlayerAuthenticatedDelegate env p s).state.ConnectionIsLive = false ∧
    (PlayerAuthenticatedDelegate env p s).state.bWantToConnect = true := by
  rw [PlayerAuthenticatedDelegate_want env p s hwant]
  have hp := Ping_wanted env
    { emit (.call .PlayerAuthenticatedDelegate) s with bIsAuthenticated := true } hwant
  cases hping : PingServer env
      { emit (.call .PlayerAuthenticatedDelegate) s with bIsAuthenticated := true } with
  | faulted s1 =>
    rw [hping] at hp
    simpa using hp
  | returned s1 =>
    rw [hping] at hp
    simp only [state_returned] at hp
    simp only [andThen_returned]
    have hf := Flush_wanted env s1 hp.2
    exact ⟨hf.1.trans hp.1, hf.2⟩

theorem Initialise_shuttingDown (env : Env) (n i v : String) (s : Session) :
    (Initialise env n i v s).state.ShuttingDown = s.ShuttingDown := by
  unfold Initialise
  cases env.createWebSocket <;> cases env.moduleLoaded <;> cases env.moduleLoadedAfterLoad <;>
    rfl

theorem Flush_shuttingDown (env : Env) (s : Session) :
    (FlushMessageOutQueue env s).state.ShuttingDown = s.ShuttingDown := by
  simp only [FlushMessageOutQueue]
  repeat' split
  all_goals simp [Disconnect_shuttingDown, Initialise_shuttingDown]

theorem Ping_shuttingDown (env : Env) (s : Session) :
    (PingServer env s).state.ShuttingDown = s.ShuttingDown := by
  simp only [PingServer]
  repeat' split
  all_goals simp [Disconnect_shuttingDown, Initialise_shuttingDown]

theorem SendMessage_shuttingDown (env : Env) (m : String) (s : Session) :
    (SendMessage env m s).state.ShuttingDown = s.ShuttingDown := by
  simp only [SendMessage]
  split
  · simp [Disconnect_shuttingDown]
  · simp [Flush_shuttingDown]

theorem HandlePong_shuttingDown (env : Env) (d : String) (s : Session) :
    (HandlePongMessage env d s).ShuttingDown = s.ShuttingDown := by
  simp only [HandlePongMessage]
  split
  · simp [Disconnect_shuttingDown]
  · rfl

theorem PlayerAuthenticatedDelegate_shuttingDown (env : Env) (p : FPlayerAuthenticatedPayload)
    (s : Session) :
    (PlayerAuthenticatedDelegate env p s).state.ShuttingDown = s.ShuttingDown := by
  simp only [PlayerAuthenticatedDelegate]
  split
  · simp [Disconnect_shuttingDown]
  · rw [andThen_preserves (fun s => s.ShuttingDown) _ _ (Flush_shuttingDown env),
      Ping_shuttingDown]
    rfl

theorem invokeAuthDelegates_shuttingDown (env : Env) (p : FPlayerAuthenticatedPayload)
    (n : Nat) (s : Session) :
    (invokeAuthDelegates env p n s).state.ShuttingDown = s.ShuttingDown := by
  induction n generalizing s with
  | zero => rfl
  | succ n ih =>
    simp only [invokeAuthDelegates]
    rw [andThen_preserves (fun s => s.ShuttingDown) _ _ ih,
      PlayerAuthenticatedDelegate_shuttingDown]

theorem HandleInbound_shuttingDown (env : Env) (m : String) (s : Session) :
    (HandleInboundMessage env m s).state.ShuttingDown = s.ShuttingDown := by
  simp only [HandleInboundMessage, BroadcastPlayerAuthenticated]
  repeat' split
  all_goals simp [Disconnect_shuttingDown, invokeAuthDelegates_shuttingDown,
    Flush_shuttingDown, HandlePong_shuttingDown]

theorem deliver_shuttingDown (env : Env) (ev : TransportEvent) (s : Session) :
    (deliver env ev s).state.ShuttingDown = s.ShuttingDown := by
  simp only [deliver, OnConnected, OnConnectionError, OnClosed, OnRawMessage]
  repeat' split
  all_goals simp [HandleInbound_shuttingDown]

theorem step_shuttingDown (env : Env) (op : Op) (s : Session)
    (hop : op.isBeginDestroy = false) :
    (step env op s).state.ShuttingDown = s.ShuttingDown := by
  cases op <;> simp [Op.isBeginDestroy] at hop <;>
    simp [step, SendMessageType, SendMessageData, RequestAuthentication,
      SendMessage_shuttingDown, Initialise_shuttingDown, Ping_shuttingDown,
      Flush_shuttingDown, Disconnect_shuttingDown, HandleInbound_shuttingDown,
      deliver_shuttingDown]

theorem deliver_not_wanted (env : Env) (ev : TransportEvent) (s : Session)
    (hw : s.bWantToConnect = false) :
    (deliver env ev s).isReturned = true ∧ (deliver env ev s).state.bWantToConnect = false := by
  simp only [deliver, OnConnected, OnConnectionError, OnClosed, OnRawMessage,
    HandleInboundMessage]
  repeat' split
  all_goals simp_all [Outcome.isReturned, Disconnect_want]

theorem step_not_wanted (env : Env) (op : Op) (s : Session)
    (hop : op.isInitialise = false) (hw : s.bWantToConnect = false) :
    (step env op s).isReturned = true ∧ (step env op s).state.bWantToConnect = false := by
  cases op with
  | transport ev => exact deliver_not_wanted env ev s hw
  | Initialise n i v => simp [Op.isInitialise] at hop
  | _ =>
    simp [step, SendMessageType, SendMessageData, RequestAuthentication, SendMessage,
      PingServer, FlushMessageOutQueue, HandleInboundMessage, BeginDestroy, hw,
      Outcome.isReturned, Disconnect_want]

theorem BeginDestroy_shuttingDown (s : Session) :
    (BeginDestroy s).ShuttingDown = true ∧ (BeginDestroy s).bWantToConnect = false := by
  simp [BeginDestroy, Disconnect_want]

theorem run_not_wanted (h : List (Env × Op)) (s : Session)
    (hops : h.all (fun p => !p.2.isInitialise) = true) (hw : s.bWantToConnect = false) :
    (run h s).isReturned = true ∧ (run h s).state.bWantToConnect = false := by
  induction h generalizing s with
  | nil => exact ⟨rfl, hw⟩
  | cons a rest ih =>
    obtain ⟨env, op⟩ := a
    simp only [List.all_cons, Bool.and_eq_true, Bool.not_eq_true'] at hops
    obtain ⟨h1, h2⟩ := step_not_wanted env op s hops.1 hw
    obtain ⟨s1, hs1⟩ := returned_of_isReturned h1
    rw [hs1] at h2
    simp only [run, hs1, andThen_returned]
    exact ih s1 hops.2 h2

theorem run_shuttingDown_invariant (h : List (Env × Op)) (s : Session)
    (hh : noInitialiseAfterDestroy h = true)
    (hs : s.ShuttingDown = true → s.bWantToConnect = false)
    (hsd : s.ShuttingDown = false) :
    (run h s).state.ShuttingDown = true → (run h s).state.bWantToConnect = false := by
  induction h generalizing s with
  | nil => exact hs
  | cons a rest ih =>
    obtain ⟨env, op⟩ := a
    simp only [noInitialiseAfterDestroy] at hh
    cases hbd : op.isBeginDestroy with
    | true =>
      simp only [hbd, ↓reduceIte] at hh
      have hop : op = Op.BeginDestroy := by
        cases op <;> simp [Op.isBeginDestroy] at hbd
        rfl
      subst hop
      simp only [run, step, andThen_returned]
      intro _
      exact (run_not_wanted rest (BeginDestroy s) hh (BeginDestroy_shuttingDown s).2).2
    | false =>
      simp only [hbd, Bool.false_eq_true, ↓reduceIte] at hh
      have hsd' := step_shuttingDown env op s hbd
      simp only [run]
      cases hstep : step env op s with
      | faulted s1 =>
        rw [hstep] at hsd'
        simp only [state_faulted] at hsd'
        simp [hsd', hsd]
      | returned s1 =>
        rw [hstep] at hsd'
        simp only [state_returned] at hsd'
        simp only [andThen_returned]
        exact ih s1 hh (by simp [hsd', hsd]) (by rw [hsd', hsd])

/-! ## Ping, flush and send in a fixed branch -/

theorem Ping_not_wanted (env : Env) (s : Session) (hw : s.bWantToConnect = false) :
    PingServer env s = .returned (DisconnectFromServer (emit (.call .PingServer) s)) := by
  simp [PingServer, hw]

theorem Ping_connected (env : Env) (s : Session) (sock : Transport)
    (hwant : s.bWantToConnect = true) (hsock : s.Socket = some sock)
    (hconn : sock.connected = true) :
    PingServer env s = .returned
      (emit (.send (ConvertMessageToString env.pingToJson EWebSocketMessageType.Ping
          (pingPayload env s)))
        { emit (.call .PingServer) s with ConnectionIsLive := false }) := by
  simp [PingServer, hwant, hsock, hconn, pingPayload]

theorem Flush_not_connected (env : Env) (s : Session) (sock : Transport)
    (hwant : s.bWantToConnect = true) (hsock : s.Socket = some sock)
    (hconn : sock.connected = false) :
    FlushMessageOutQueue env s
      = .returned (emit .connect (emit (.call .FlushMessageOutQueue) s)) := by
  simp [FlushMessageOutQueue, hwant, hsock, hconn]

theorem Flush_held (env : Env) (s : Session) (sock : Transport)
    (hwant : s.bWantToConnect = true) (hsock : s.Socket = some sock)
    (hconn : sock.connected = true) (hlive : s.ConnectionIsLive = false) :
    FlushMessageOutQueue env s = .returned (emit (.call .FlushMessageOutQueue) s) := by
  simp [FlushMessageOutQueue, hwant, hsock, hconn, hlive]

theorem SendMessage_wanted (env : Env) (m : String) (s : Session)
    (hwant : s.bWantToConnect = true) :
    SendMessage env m s = FlushMessageOutQueue env
      { emit (.call .SendMessage) s with MessageOutQueue := s.MessageOutQueue ++ [m] } := by
  simp [SendMessage, hwant]

theorem SendMessage_held (env : Env) (m : String) (s : Session) (sock : Transport)
    (hwant : s.bWantToConnect = true) (hsock : s.Socket = some sock)
    (hconn : sock.connected = true) (hlive : s.ConnectionIsLive = false) :
    SendMessage env m s = .returned
      (emit (.call .FlushMessageOutQueue)
        { emit (.call .SendMessage) s with MessageOutQueue := s.MessageOutQueue ++ [m] }) := by
  rw [SendMessage_wanted env m s hwant]
  exact Flush_held env _ sock hwant hsock hconn hlive

theorem Initialise_identity (env : Env) (n i v : String) (s : Session) :
    identity (Initialise env n i v s).state
      = { PlayerName := n, PlayerID := i, GameVersion := v } := by
  unfold Initialise
  cases env.createWebSocket <;> cases env.moduleLoaded <;> cases env.moduleLoadedAfterLoad <;>
    rfl

theorem Initialise_same_identity (env : Env) (s : Session) :
    identity (Initialise env s.PlayerName s.PlayerID s.GameVersion s).state = identity s := by
  rw [Initialise_identity]
  rfl

theorem Disconnect_identity (s : Session) : identity (DisconnectFromServer s) = identity s := by
  simp only [DisconnectFromServer]
  repeat' split
  all_goals rfl

theorem Flush_identity (env : Env) (s : Session) :
    identity (FlushMessageOutQueue env s).state = identity s := by
  simp only [FlushMessageOutQueue]
  repeat' split
  · simp only [state_returned, Disconnect_identity]; rfl
  · simp only [andThen_returned_right]
    exact Initialise_same_identity env (emit (.call .FlushMessageOutQueue) s)
  all_goals simp [identity]

theorem Ping_identity (env : Env) (s : Session) :
    identity (PingServer env s).state = identity s := by
  simp only [PingServer]
  repeat' split
  · simp only [state_returned, Disconnect_identity]; rfl
  · simp only [andThen_returned_right]
    exact Initialise_same_identity env
      { emit (.call .PingServer) s with ConnectionIsLive := false }
  all_goals simp [identity]

theorem SendMessage_identity (env : Env) (m : String) (s : Session) :
    identity (SendMessage env m s).state = identity s := by
  simp only [SendMessage]
  split
  · simp only [state_returned, Disconnect_identity]; rfl
  · rw [Flush_identity]; rfl

theorem HandlePong_identity (env : Env) (d : String) (s : Session) :
    identity (HandlePongMessage env d s) = identity s := by
  simp only [HandlePongMessage]
  split
  · simp only [Disconnect_identity]; rfl
  · rfl

theorem PlayerAuthenticatedDelegate_identity (env : Env) (p : FPlayerAuthenticatedPayload)
    (s : Session) : identity (PlayerAuthenticatedDelegate env p s).state = identity s := by
  simp only [PlayerAuthenticatedDelegate]
  split
  · simp only [state_returned, Disconnect_identity]; rfl
  · rw [andThen_preserves identity _ _ (Flush_identity env), Ping_identity]
    rfl

theorem invokeAuthDelegates_identity (env : Env) (p : FPlayerAuthenticatedPayload) (n : Nat)
    (s : Session) : identity (invokeAuthDelegates env p n s).state = identity s := by
  induction n generalizing s with
  | zero => rfl
  | succ n ih =>
    simp only [invokeAuthDelegates]
    rw [andThen_preserves identity _ _ ih, PlayerAuthenticatedDelegate_identity]

theorem HandleInbound_identity (env : Env) (m : String) (s : Session) :
    identity (HandleInboundMessage env m s).state = identity s := by
  simp only [HandleInboundMessage, BroadcastPlayerAuthenticated]
  repeat' split
  all_goals simp only [state_returned, Disconnect_identity, invokeAuthDelegates_identity,
    Flush_identity, HandlePong_identity]
  all_goals rfl

theorem deliver_identity (env : Env) (ev : TransportEvent) (s : Session) :
    identity (deliver env ev s).state = identity s := by
  simp only [deliver, OnConnected, OnConnectionError, OnClosed, OnRawMessage]
  repeat' split
  all_goals simp only [state_returned, HandleInbound_identity]
  all_goals rfl

theorem step_identity (env : Env) (op : Op) (s : Session) (hop : op.isInitialise = false) :
    identity (step env op s).state = identity s := by
  cases op with
  | Initialise n i v => simp [Op.isInitialise] at hop
  | transport ev => exact deliver_identity env ev s
  | SendMessage m => exact SendMessage_identity env m s
  | SendMessageType k => exact SendMessage_identity env _ s
  | SendMessageData k j => exact SendMessage_identity env _ s
  | RequestAuthentication p =>
    simp only [step, RequestAuthentication, SendMessageData]
    rw [SendMessage_identity]; rfl
  | PingServer => exact Ping_identity env s
  | FlushMessageOutQueue => exact Flush_identity env s
  | DisconnectFromServer => exact Disconnect_identity s
  | BeginDestroy =>
    simp only [step, state_returned, BeginDestroy]
    exact (Disconnect_identity _).trans rfl
  | HandleInboundMessage m => exact HandleInbound_identity env m s

theorem run_identity (h : List (Env × Op)) (s : Session)
    (hops : h.all (fun p => !p.2.isInitialise) = true) :
    identity (run h s).state = identity s := by
  induction h generalizing s with
  | nil => rfl
  | cons a rest ih =>
    obtain ⟨env, op⟩ := a
    simp only [List.all_cons, Bool.and_eq_true, Bool.not_eq_true'] at hops
    simp only [run]
    rw [andThen_preserves identity _ _ (fun s1 => ih s1 hops.2), step_identity env op s hops.1]

theorem deliver_connected (env : Env) (s : Session) (sock : Transport)
    (hsock : s.Socket = some sock) (hbound : sock.onConnected = true) :
    deliver env .connected s =
      if s.ShuttingDown then .returned s
      else .returned (emit (.send (ConvertMessageToString env.authToJson
        EWebSocketMessageType.RequestAuthentication (identity s))) s) := by
  cases h : s.ShuttingDown <;> simp [deliver, hsock, hbound, OnConnected, identity, h]

theorem deliver_closed (env : Env) (s : Session) (sock : Transport) (c : Int) (r : String)
    (b : Bool) (hsock : s.Socket = some sock) (hbound : sock.onClosed = true) :
    deliver env (.closed c r b) s = .returned { s with bIsAuthenticated := false } := by
  simp only [deliver, hsock, hbound, OnClosed]
  cases h : s.bIsAuthenticated
  · simp
    cases s
    simp_all
  · simp

/-! ## Sends held back until a pong -/

theorem step_send_held (env : Env) (op : Op) (s : Session) (sock : Transport)
    (hop : op.isSend = true) (hwant : s.bWantToConnect = true) (hsock : s.Socket = some sock)
    (hconn : sock.connected = true) (hlive : s.ConnectionIsLive = false) :
    ∃ m, op.submitted env = some m ∧
      step env op s = .returned
        (emit (.call .FlushMessageOutQueue)
          { emit (.call .SendMessage) s with MessageOutQueue := s.MessageOutQueue ++ [m] }) := by
  cases op <;> simp [Op.isSend] at hop
  · exact ⟨_, rfl, SendMessage_held env _ s sock hwant hsock hconn hlive⟩
  · exact ⟨_, rfl, SendMessage_held env _ s sock hwant hsock hconn hlive⟩
  · exact ⟨_, rfl, SendMessage_held env _ s sock hwant hsock hconn hlive⟩

theorem run_sends_held (h : List (Env × Op)) (s : Session) (sock : Transport)
    (hops : ∀ p ∈ h, p.2.isSend = true) (hwant : s.bWantToConnect = true)
    (hsock : s.Socket = some sock) (hconn : sock.connected = true)
    (hlive : s.ConnectionIsLive = false) :
    (run h s).isReturned = true ∧
    (run h s).state.bWantToConnect = true ∧
    (run h s).state.Socket = some sock ∧
    (run h s).state.ConnectionIsLive = false ∧
    sends (run h s).state.trace = sends s.trace ∧
    (run h s).state.MessageOutQueue = s.MessageOutQueue ++ submittedTexts h := by
  induction h generalizing s with
  | nil => simp [run, Outcome.isReturned, submittedTexts, hwant, hsock, hlive]
  | cons a rest ih =>
    obtain ⟨env, op⟩ := a
    have hop : op.isSend = true := hops (env, op) (by simp)
    have hrest : ∀ p ∈ rest, p.2.isSend = true := fun p hp => hops p (by simp [hp])
    obtain ⟨m, hm, hstep⟩ := step_send_held env op s sock hop hwant hsock hconn hlive
    simp only [run, hstep, andThen_returned]
    obtain ⟨h1, h2, h3, h4, h5, h6⟩ := ih
      (emit (.call .FlushMessageOutQueue)
        { emit (.call .SendMessage) s with MessageOutQueue := s.MessageOutQueue ++ [m] })
      hrest hwant hsock hlive
    refine ⟨h1, h2, h3, h4, ?_, ?_⟩
    · rw [h5]; simp [sends]
    · rw [h6]; simp [submittedTexts, hm]

theorem Flush_live (env : Env) (s : Session) (sock : Transport)
    (hwant : s.bWantToConnect = true) (hsock : s.Socket = some sock)
    (hconn : sock.connected = true) (hlive : s.ConnectionIsLive = true) :
    (FlushMessageOutQueue env s).isReturned = true ∧
    sends (FlushMessageOutQueue env s).state.trace = sends s.trace ++ s.MessageOutQueue ∧
    (FlushMessageOutQueue env s).state.MessageOutQueue = [] := by
  rw [flush_live_eq env s sock hwant hsock hconn hlive]
  refine ⟨rfl, ?_, rfl⟩
  show sends (s.trace ++ ([Effect.call Fn.FlushMessageOutQueue]
    ++ queueEffects env s.MessageOutQueue)) = _
  rw [sends_append, sends_append, sends_queueEffects]
  rfl

theorem HandleInbound_Pong_connected (env : Env) (m : String) (s : Session) (sock : Transport)
    (hwant : s.bWantToConnect = true) (hsock : s.Socket = some sock)
    (hconn : sock.connected = true) (hkind : kindOf m = EWebSocketMessageType.Pong) :
    (HandleInboundMessage env m s).isReturned = true ∧
    sends (HandleInboundMessage env m s).state.trace = sends s.trace ++ s.MessageOutQueue ∧
    (HandleInboundMessage env m s).state.MessageOutQueue = [] := by
  have hne : ¬ kindOf m = EWebSocketMessageType.PlayerAuthenticated := by
    rw [hkind]; decide
  rw [HandleInbound_wanted env m s hwant, if_neg hne, if_pos hkind]
  have hp := HandlePong_want env (Split m).2 (accepted env m s) hwant
  obtain ⟨f1, f2, f3⟩ := Flush_live env (HandlePongMessage env (Split m).2 (accepted env m s))
    sock (by rw [hp]; exact hwant) (by rw [hp]; exact hsock) hconn (by rw [hp]; rfl)
  refine ⟨f1, ?_, f3⟩
  rw [f2, hp]
  simp [sends, accepted]

/-! ## The clock estimates, function by function -/

/-- A property that holds where the first call stops and that every continuation keeps
holds where the sequence stops. -/
theorem andThen_keeps (P : Session → Prop) (o : Outcome) (f : Session → Outcome)
    (ho : P o.state) (hf : ∀ s, P s → P (f s).state) : P (o.andThen f).state := by
  cases o with
  | returned s => exact hf s ho
  | faulted s => exact ho

theorem Initialise_wanted (env : Env) (n i v : String) (s : Session) :
    AuthenticatedImpliesWanted (Initialise env n i v s).state := by
  intro _
  exact (Initialise_live_want env n i v s).2

theorem Disconnect_keeps (s : Session) : AuthenticatedImpliesWanted (DisconnectFromServer s) := by
  intro h
  rw [Disconnect_auth] at h
  exact absurd h (by decide)

theorem Flush_keeps (env : Env) (s : Session) (hs : AuthenticatedImpliesWanted s) :
    AuthenticatedImpliesWanted (FlushMessageOutQueue env s).state := by
  simp only [FlushMessageOutQueue]
  repeat' split
  · exact Disconnect_keeps _
  · simp only [andThen_returned_right]
    exact Initialise_wanted env _ _ _ _
  all_goals first
    | exact hs
    | simpa [AuthenticatedImpliesWanted] using hs

theorem Ping_keeps (env : Env) (s : Session) (hs : AuthenticatedImpliesWanted s) :
    AuthenticatedImpliesWanted (PingServer env s).state := by
  simp only [PingServer]
  repeat' split
  · exact Disconnect_keeps _
  · simp only [andThen_returned_right]
    exact Initialise_wanted env _ _ _ _
  all_goals exact hs

theorem SendMessage_keeps (env : Env) (m : String) (s : Session)
    (hs : AuthenticatedImpliesWanted s) :
    AuthenticatedImpliesWanted (SendMessage env m s).state := by
  simp only [SendMessage]
  split
  · exact Disconnect_keeps _
  · exact Flush_keeps env _ hs

theorem HandlePong_keeps (env : Env) (d : String) (s : Session)
    (hs : AuthenticatedImpliesWanted s) :
    AuthenticatedImpliesWanted (HandlePongMessage env d s) := by
  simp only [HandlePongMessage]
  split
  · exact Disconnect_keeps _
  · exact hs

theorem PlayerAuthenticatedDelegate_keeps (env : Env) (p : FPlayerAuthenticatedPayload)
    (s : Session) : AuthenticatedImpliesWanted (PlayerAuthenticatedDelegate env p s).state := by
  cases hwant : s.bWantToConnect with
  | false =>
    simp only [PlayerAuthenticatedDelegate, emit_bWantToConnect, hwant, Bool.not_false,
      ↓reduceIte, state_returned]
    exact Disconnect_keeps _
  | true =>
    intro _
    exact (PlayerAuthenticatedDelegate_wanted env p s hwant).2

theorem invokeAuthDelegates_keeps (env : Env) (p : FPlayerAuthenticatedPayload) (n : Nat)
    (s : Session) (hs : AuthenticatedImpliesWanted s) :
    AuthenticatedImpliesWanted (invokeAuthDelegates env p n s).state := by
  induction n generalizing s with
  | zero => exact hs
  | succ n ih =>
    simp only [invokeAuthDelegates]
    exact andThen_keeps AuthenticatedImpliesWanted _ _
      (PlayerAuthenticatedDelegate_keeps env p s) (fun s1 h1 => ih s1 h1)

theorem HandleInbound_keeps (env : Env) (m : String) (s : Session)
    (hs : AuthenticatedImpliesWanted s) :
    AuthenticatedImpliesWanted (HandleInboundMessage env m s).state := by
  simp only [HandleInboundMessage, BroadcastPlayerAuthenticated]
  repeat' split
  · exact Disconnect_keeps _
  · exact invokeAuthDelegates_keeps env _ _ _ hs
  · exact Flush_keeps env _ (HandlePong_keeps env _ _ hs)
  all_goals exact hs

theorem BeginDestroy_keeps (s : Session) : AuthenticatedImpliesWanted (BeginDestroy s) := by
  intro h
  have : (BeginDestroy s).bIsAuthenticated = false := by
    simp [BeginDestroy, Disconnect_auth]
  rw [this] at h
  exact absurd h (by decide)

theorem deliver_keeps (env : Env) (ev : TransportEvent) (s : Session)
    (hs : AuthenticatedImpliesWanted s) :
    AuthenticatedImpliesWanted (deliver env ev s).state := by
  simp only [deliver, OnConnected, OnConnectionError, OnClosed, OnRawMessage]
  repeat' split
  all_goals first
    | exact hs
    | exact HandleInbound_keeps env _ s hs
    | (intro h; simp at h)

theorem step_keeps (env : Env) (op : Op) (s : Session) (hs : AuthenticatedImpliesWanted s) :
    AuthenticatedImpliesWanted (step env op s).state := by
  cases op with
  | Initialise n i v => exact Initialise_wanted env n i v s
  | transport ev => exact deliver_keeps env ev s hs
  | SendMessage m => exact SendMessage_keeps env m s hs
  | SendMessageType k => exact SendMessage_keeps env _ s hs
  | SendMessageData k j => exact SendMessage_keeps env _ s hs
  | RequestAuthentication p => exact SendMessage_keeps env _ _ hs
  | PingServer => exact Ping_keeps env s hs
  | FlushMessageOutQueue => exact Flush_keeps env s hs
  | DisconnectFromServer => exact Disconnect_keeps s
  | BeginDestroy => exact BeginDestroy_keeps s
  | HandleInboundMessage m => exact HandleInbound_keeps env m s hs

theorem run_keeps (h : List (Env × Op)) (s : Session) (hs : AuthenticatedImpliesWanted s) :
    AuthenticatedImpliesWanted (run h s).state := by
  induction h generalizing s with
  | nil => exact hs
  | cons a rest ih =>
    obtain ⟨env, op⟩ := a
    simp only [run]
    exact andThen_keeps AuthenticatedImpliesWanted _ _ (step_keeps env op s hs)
      (fun s1 h1 => ih s1 h1)

theorem kindOf_examples :
    kindOf "Pong\n" = EWebSocketMessageType.Pong ∧
    kindOf "pong\n" = EWebSocketMessageType.Pong ∧
    kindOf "PLAYERAUTHENTICATED\n" = EWebSocketMessageType.PlayerAuthenticated ∧
    kindOf "EWebSocketMessageType::Ping\n" = EWebSocketMessageType.Ping ∧
    kindOf "Other::Ping\n" = 255 ∧
    kindOf "Ping_0\n" = 255 ∧
    kindOf "ewebsocketmessagetype_max\n" = 8 := by
  decide

/-! ## Halving a time span -/

/-- Claim C1: when the session wants to be connected, its transport exists and reports
connected, and the connection is live, `FlushMessageOutQueue` returns, hands every queued
message to the transport in enqueue order, each right after its `OnMessageSent` broadcast,
and leaves the queue empty. -/
theorem flush_sends_whole_queue_in_order (env : Env) (s : Session) (sock : Transport)
    (hwant : s.bWantToConnect = true) (hsock : s.Socket = some sock)
    (hconn : sock.connected = true) (hlive : s.ConnectionIsLive = true) :
    (FlushMessageOutQueue env s).isReturned = true ∧
    (FlushMessageOutQueue env s).state.MessageOutQueue = [] ∧
    (FlushMessageOutQueue env s).state.trace =
      s.trace ++ Effect.call Fn.FlushMessageOutQueue ::
        s.MessageOutQueue.flatMap (fun m => [Effect.messageSent m env.now, Effect.send m]) ∧
    sends (FlushMessageOutQueue env s).state.trace = sends s.trace ++ s.MessageOutQueue ∧
    sentFromQueue (FlushMessageOutQueue env s).state.trace
      = sentFromQueue s.trace ++ s.MessageOutQueue := by
  rw [flush_live_eq env s sock hwant hsock hconn hlive]
  refine ⟨rfl, rfl, rfl, ?_, ?_⟩
  · show sends (s.trace ++ ([Effect.call Fn.FlushMessageOutQueue]
      ++ queueEffects env s.MessageOutQueue)) = _
    rw [sends_append, sends_append, sends_queueEffects]
    rfl
  · show sentFromQueue (s.trace ++ ([Effect.call Fn.FlushMessageOutQueue]
      ++ queueEffects env s.MessageOutQueue)) = _
    rw [sentFromQueue_append, sentFromQueue_append, sentFromQueue_queueEffects]
    rfl

/-- Claim C1 on the sample session holding `m1` and `m2`: both are sent, in that order. -/
theorem flush_sends_whole_queue_in_order_witness :
    Session.sampleQueued.MessageOutQueue = ["m1", "m2"] ∧
    (FlushMessageOutQueue Env.sample Session.sampleQueued).state.MessageOutQueue = [] ∧
    sends (FlushMessageOutQueue Env.sample Session.sampleQueued).state.trace
      = sends Session.sampleQueued.trace ++ Session.sampleQueued.MessageOutQueue :=
  ⟨by decide,
   (flush_sends_whole_queue_in_order Env.sample Session.sampleQueued
      ⟨true, true, true, true, true, true⟩ (by decide) (by decide) (by decide)
      (by decide)).2.1,
   (flush_sends_whole_queue_in_order Env.sample Session.sampleQueued
      ⟨true, true, true, true, true, true⟩ (by decide) (by decide) (by decide)
      (by decide)).2.2.2.1⟩

/-- Claim C2: when the connection is not live, `FlushMessageOutQueue` hands nothing to
the transport and leaves the queue as it was, whatever the intent flag and the transport
are; this covers the state in which the function stops when the lazy `Initialise`
faults. -/
theorem flush_not_live_sends_nothing (env : Env) (s : Session)
    (hlive : s.ConnectionIsLive = false) :
    sends (FlushMessageOutQueue env s).state.trace = sends s.trace ∧
    (FlushMessageOutQueue env s).state.MessageOutQueue = s.MessageOutQueue :=
  Flush_not_live env s hlive

/-- Claim C2 on the sample session with liveness revoked: `m1` and `m2` stay queued. -/
theorem flush_not_live_sends_nothing_witness :
    ({ Session.sampleQueued with ConnectionIsLive := false } : Session).ConnectionIsLive
      = false ∧
    sends (FlushMessageOutQueue Env.sample
        { Session.sampleQueued with ConnectionIsLive := false }).state.trace
      = sends ({ Session.sampleQueued with ConnectionIsLive := false } : Session).trace ∧
    (FlushMessageOutQueue Env.sample
        { Session.sampleQueued with ConnectionIsLive := false }).state.MessageOutQueue
      = ({ Session.sampleQueued with ConnectionIsLive := false } : Session).MessageOutQueue :=
  ⟨rfl, flush_not_live_sends_nothing Env.sample
    { Session.sampleQueued with ConnectionIsLive := false } rfl⟩

/-- Claim C3: after any history of member function calls and transport events, the
messages sent from the queue followed by the queue content are exactly the messages
submitted to `SendMessage` while the session wanted to be connected, in order of
submission (from a fresh session, and on top of what any other starting state holds);
`DisconnectFromServer` and the closed event leave the queue unchanged. -/
theorem queue_conservation (h : List (Env × Op)) (s : Session) :
    sentFromQueue (run h s).state.trace ++ (run h s).state.MessageOutQueue
      = sentFromQueue s.trace ++ s.MessageOutQueue ++ enqueued h s ∧
    sentFromQueue (run h Session.fresh).state.trace
        ++ (run h Session.fresh).state.MessageOutQueue
      = enqueued h Session.fresh ∧
    (DisconnectFromServer s).MessageOutQueue = s.MessageOutQueue ∧
    ∀ (env : Env) (StatusCode : Int) (Reason : String) (bWasClean : Bool),
      (deliver env (TransportEvent.closed StatusCode Reason bWasClean) s).state.MessageOutQueue
        = s.MessageOutQueue := by
  refine ⟨run_ledger h s, ?_, Disconnect_queue s, ?_⟩
  · have := run_ledger h Session.fresh
    simpa [ledger, Session.fresh, sentFromQueue] using this
  · intro env StatusCode Reason bWasClean
    simp only [deliver, OnClosed]
    repeat' split
    all_goals rfl

/-- Claim C5: `DisconnectFromServer` called in any state clears `bIsAuthenticated` and
`bWantToConnect`, and any number of `SendMessage` calls after it, in any of the three
forms, return without handing anything to the transport and without enqueueing: each
call only enters `DisconnectFromServer` again. -/
theorem no_send_after_disconnect (s : Session) (h : List (Env × Op))
    (hops : ∀ p ∈ h, p.2.isSend = true) :
    (DisconnectFromServer s).bIsAuthenticated = false ∧
    (DisconnectFromServer s).bWantToConnect = false ∧
    (run h (DisconnectFromServer s)).isReturned = true ∧
    sends (run h (DisconnectFromServer s)).state.trace = sends s.trace ∧
    (run h (DisconnectFromServer s)).state.MessageOutQueue = s.MessageOutQueue ∧
    (run h (DisconnectFromServer s)).state.bWantToConnect = false ∧
    (run h (DisconnectFromServer s)).state.bIsAuthenticated = false ∧
    calls (run h (DisconnectFromServer s)).state.trace
      = calls (DisconnectFromServer s).trace
          ++ h.flatMap (fun _ => [Fn.SendMessage, Fn.DisconnectFromServer]) := by
  obtain ⟨h1, h2, h3, h4, h5, h6⟩ :=
    run_sends_not_wanted h (DisconnectFromServer s) hops (Disconnect_want s) (Disconnect_auth s)
  refine ⟨Disconnect_auth s, Disconnect_want s, h1, ?_, ?_, h4, h5, h6⟩
  · rw [h2, Disconnect_sends]
  · rw [h3, Disconnect_queue]

/-- Claim C5 on the sample session: three sends after a disconnect, one of each form. -/
theorem no_send_after_disconnect_witness :
    (∀ p ∈ [(Env.sample, Op.SendMessage "a"), (Env.sample, Op.SendMessageType 5),
            (Env.sample, Op.SendMessageData 0 "b")], p.2.isSend = true) ∧
    sends (run [(Env.sample, Op.SendMessage "a"), (Env.sample, Op.SendMessageType 5),
            (Env.sample, Op.SendMessageData 0 "b")]
        (DisconnectFromServer Session.sample)).state.trace = sends Session.sample.trace ∧
    (run [(Env.sample, Op.SendMessage "a"), (Env.sample, Op.SendMessageType 5),
            (Env.sample, Op.SendMessageData 0 "b")]
        (DisconnectFromServer Session.sample)).state.MessageOutQueue
      = Session.sample.MessageOutQueue :=
  ⟨by decide,
   (no_send_after_disconnect Session.sample _ (by decide)).2.2.2.1,
   (no_send_after_disconnect Session.sample _ (by decide)).2.2.2.2.1⟩

/-- Claim C8: after `BeginDestroy`, called in any state, `ShuttingDown` is set, and every
sequence of transport events (connected, connection error, closed, message, raw message,
connection up or down) is handled without a fault, hands nothing to the transport, issues
no `Connect`, and leaves `bIsAuthenticated` false. -/
theorem no_activity_after_shutdown (s : Session) (evs : List (Env × TransportEvent)) :
    (BeginDestroy s).ShuttingDown = true ∧
    (run (eventHistory evs) (BeginDestroy s)).isReturned = true ∧
    sends (run (eventHistory evs) (BeginDestroy s)).state.trace = sends (BeginDestroy s).trace ∧
    connects (run (eventHistory evs) (BeginDestroy s)).state.trace
      = connects (BeginDestroy s).trace ∧
    (run (eventHistory evs) (BeginDestroy s)).state.bIsAuthenticated = false := by
  obtain ⟨h1, h2, h3, h4⟩ := run_events_destroyed evs (BeginDestroy s) (BeginDestroy_destroyed s)
  exact ⟨(BeginDestroy_destroyed s).1, h1, h3, h4, h2.2.2⟩

/-- Claim C9: for each of the seven message kinds and every payload text, splitting the
encoded message at its first line feed gives back the kind name and the payload text
unchanged, also when the payload holds line feeds, and the name looks up to the kind;
the same holds for the form without a payload. -/
theorem codec_round_trip (k : EWebSocketMessageType) (hk : k ∈ definedKinds)
    {α : Type} (toJson : α → String) (data : α) :
    Split (ConvertMessageToString toJson k data) = (WSMessageTypeEnumToString k, toJson data) ∧
    WSMessageTypeStringToEnum (Split (ConvertMessageToString toJson k data)).1 = k ∧
    Split (WSMessageTypeEnumToString k ++ "\n\x7b\x7d")
      = (WSMessageTypeEnumToString k, "\x7b\x7d") ∧
    WSMessageTypeStringToEnum (Split (WSMessageTypeEnumToString k ++ "\n\x7b\x7d")).1 = k := by
  have h2 : WSMessageTypeEnumToString k ++ "\n\x7b\x7d"
      = WSMessageTypeEnumToString k ++ "\n" ++ "\x7b\x7d" := by
    rw [String.append_assoc]; rfl
  refine ⟨?_, ?_, ?_, ?_⟩
  · simp only [ConvertMessageToString, Split_kind k hk]
  · simp only [ConvertMessageToString, Split_kind k hk, lookup_kind k hk]
  · rw [h2, Split_kind k hk]
  · rw [h2, Split_kind k hk, lookup_kind k hk]

/-- Claim C9 on a `Pong` whose payload text holds a line feed. -/
theorem codec_round_trip_witness :
    EWebSocketMessageType.Pong ∈ definedKinds ∧
    Split (ConvertMessageToString id EWebSocketMessageType.Pong "a\nb") = ("Pong", "a\nb") ∧
    WSMessageTypeStringToEnum
      (Split (ConvertMessageToString id EWebSocketMessageType.Pong "a\nb")).1
        = EWebSocketMessageType.Pong :=
  ⟨by decide,
   (codec_round_trip EWebSocketMessageType.Pong (by decide) id "a\nb").1,
   (codec_round_trip EWebSocketMessageType.Pong (by decide) id "a\nb").2.1⟩

/-- Claim C10 fails on the code: for the empty string, which is also the kind part of a
raw message without a line feed, the reflection lookup answers `INDEX_NONE` and
`WSMessageTypeStringToEnum` casts it to 255, which is not `INVALID` (7). -/
theorem unknown_name_is_not_INVALID :
    GetValueByNameString "" = INDEX_NONE ∧
    WSMessageTypeStringToEnum "" = 255 ∧
    WSMessageTypeStringToEnum "" ≠ EWebSocketMessageType.INVALID ∧
    (Split "hello").1 = "" ∧
    kindOf "hello" ≠ EWebSocketMessageType.INVALID := by
  decide

/-- Claim C11 fails as stated: from a fresh session, `BeginDestroy` followed by a call of
`Initialise` leaves `ShuttingDown` set and `bWantToConnect` true. -/
theorem initialise_after_destroy_rearms :
    (run [(Env.sample, Op.BeginDestroy), (Env.sample, Op.Initialise "name" "id" "1")]
      Session.fresh).state.ShuttingDown = true ∧
    (run [(Env.sample, Op.BeginDestroy), (Env.sample, Op.Initialise "name" "id" "1")]
      Session.fresh).state.bWantToConnect = true := by
  decide

/-- Claim C11 as amended: in every state reached from a fresh session by a history of
member function calls and transport events in which `Initialise` is not called after
`BeginDestroy`, `ShuttingDown` set implies `bWantToConnect` false. -/
theorem shutting_down_implies_not_wanted (h : List (Env × Op))
    (hh : noInitialiseAfterDestroy h = true) :
    (run h Session.fresh).state.ShuttingDown = true →
      (run h Session.fresh).state.bWantToConnect = false :=
  run_shuttingDown_invariant h Session.fresh hh (fun hs => by simp [Session.fresh] at hs) rfl

/-- Claim C11 as amended, on a history that initialises, sends, destroys and then
flushes and receives a message. -/
theorem shutting_down_implies_not_wanted_witness :
    noInitialiseAfterDestroy
      [(Env.sample, Op.Initialise "name" "id" "1"), (Env.sample, Op.SendMessage "a"),
       (Env.sample, Op.BeginDestroy), (Env.sample, Op.FlushMessageOutQueue),
       (Env.sample, Op.transport (TransportEvent.message "Pong\n"))] = true ∧
    (run [(Env.sample, Op.Initialise "name" "id" "1"), (Env.sample, Op.SendMessage "a"),
       (Env.sample, Op.BeginDestroy), (Env.sample, Op.FlushMessageOutQueue),
       (Env.sample, Op.transport (TransportEvent.message "Pong\n"))]
      Session.fresh).state.ShuttingDown = true ∧
    (run [(Env.sample, Op.Initialise "name" "id" "1"), (Env.sample, Op.SendMessage "a"),
       (Env.sample, Op.BeginDestroy), (Env.sample, Op.FlushMessageOutQueue),
       (Env.sample, Op.transport (TransportEvent.message "Pong\n"))]
      Session.fresh).state.bWantToConnect = false :=
  ⟨by decide, by decide,
   shutting_down_implies_not_wanted _ (by decide) (by decide)⟩

/-- Claim C12 fails as stated: in the sample session after a disconnect, which does not
want to be connected and is live, `PingServer` returns with `ConnectionIsLive` still
true. -/
theorem ping_when_not_wanted_keeps_liveness :
    (DisconnectFromServer Session.sample).bWantToConnect = false ∧
    (DisconnectFromServer Session.sample).ConnectionIsLive = true ∧
    (PingServer Env.sample (DisconnectFromServer Session.sample)).isReturned = true ∧
    (PingServer Env.sample (DisconnectFromServer Session.sample)).state.ConnectionIsLive
      = true := by
  decide

/-- Claim C12 as amended: when the session wants to be connected, `PingServer` stops
with `ConnectionIsLive` false whichever of the later guards ends it (also when the lazy
`Initialise` faults); when the session does not want to be connected, `PingServer` only
runs `DisconnectFromServer` and `ConnectionIsLive` keeps its value. -/
theorem ping_revokes_liveness_when_wanted (env : Env) (s : Session) :
    (s.bWantToConnect = true → (PingServer env s).state.ConnectionIsLive = false) ∧
    (s.bWantToConnect = false →
      PingServer env s
        = Outcome.returned (DisconnectFromServer (emit (Effect.call Fn.PingServer) s)) ∧
      (PingServer env s).state.ConnectionIsLive = s.ConnectionIsLive) := by
  refine ⟨fun hw => (Ping_wanted env s hw).1, fun hw => ?_⟩
  rw [Ping_not_wanted env s hw]
  exact ⟨rfl, by simp [Disconnect_live]⟩

/-- Claim C12 as amended, on the sample session before and after a disconnect. -/
theorem ping_revokes_liveness_when_wanted_witness :
    Session.sample.bWantToConnect = true ∧
    (PingServer Env.sample Session.sample).state.ConnectionIsLive = false ∧
    (DisconnectFromServer Session.sample).bWantToConnect = false ∧
    (PingServer Env.sample (DisconnectFromServer Session.sample)).state.ConnectionIsLive
      = (DisconnectFromServer Session.sample).ConnectionIsLive :=
  ⟨by decide,
   (ping_revokes_liveness_when_wanted Env.sample Session.sample).1 (by decide),
   by decide,
   ((ping_revokes_liveness_when_wanted Env.sample (DisconnectFromServer Session.sample)).2
     (by decide)).2⟩

/-- Claim C13: when the session wants to be connected and its transport exists and
reports connected, `PingServer` returns having handed the transport exactly one message,
the encoding of a `Ping` whose payload holds the clock reading, its millisecond part and
the current latency and clock offset estimates; liveness is revoked and nothing else
changes, in particular not the queue. -/
theorem ping_sends_one_ping (env : Env) (s : Session) (sock : Transport)
    (hwant : s.bWantToConnect = true) (hsock : s.Socket = some sock)
    (hconn : sock.connected = true) :
    PingServer env s = Outcome.returned
      (emit (Effect.send (ConvertMessageToString env.pingToJson EWebSocketMessageType.Ping
          (pingPayload env s)))
        { emit (Effect.call Fn.PingServer) s with ConnectionIsLive := false }) ∧
    pingPayload env s =
      { PingTime := env.now, PingMs := GetMillisecond env.now,
        CurrentLatencyEstimate := s.LatencyEstimate,
        CurrentServerTimeOffsetEstimate := s.ServerClockOffset } ∧
    sends (PingServer env s).state.trace
      = sends s.trace ++ [ConvertMessageToString env.pingToJson EWebSocketMessageType.Ping
          (pingPayload env s)] ∧
    (PingServer env s).state.MessageOutQueue = s.MessageOutQueue := by
  rw [Ping_connected env s sock hwant hsock hconn]
  refine ⟨rfl, rfl, ?_, rfl⟩
  simp [sends]

/-- Claim C13 on the sample session: one message, the ping, goes to the transport. -/
theorem ping_sends_one_ping_witness :
    Session.sample.bWantToConnect = true ∧
    sends (PingServer Env.sample Session.sample).state.trace
      = sends Session.sample.trace
          ++ [ConvertMessageToString Env.sample.pingToJson EWebSocketMessageType.Ping
                (pingPayload Env.sample Session.sample)] ∧
    (PingServer Env.sample Session.sample).state.MessageOutQueue
      = Session.sample.MessageOutQueue :=
  ⟨by decide,
   (ping_sends_one_ping Env.sample Session.sample ⟨true, true, true, true, true, true⟩
      (by decide) (by decide) (by decide)).2.2.1,
   (ping_sends_one_ping Env.sample Session.sample ⟨true, true, true, true, true, true⟩
      (by decide) (by decide) (by decide)).2.2.2⟩

/-- Claim C14: when the transport delivers its connected event to the handler bound in
`Initialise`, a session that is shutting down is left exactly as it was, and any other
session hands the transport exactly one message, the encoding of `RequestAuthentication`
with the identity it holds, and changes nothing else, in particular not the queue.  The
identity it holds is the one given to the last `Initialise`: no other step changes it. -/
theorem connected_event_requests_authentication (env : Env) (s : Session) (sock : Transport)
    (hsock : s.Socket = some sock) (hbound : sock.onConnected = true) :
    (s.ShuttingDown = true → deliver env TransportEvent.connected s = Outcome.returned s) ∧
    (s.ShuttingDown = false →
      deliver env TransportEvent.connected s = Outcome.returned
        (emit (Effect.send (ConvertMessageToString env.authToJson
          EWebSocketMessageType.RequestAuthentication (identity s))) s)) ∧
    (∀ (env0 : Env) (n i v : String) (s0 : Session) (h : List (Env × Op)),
      h.all (fun p => !p.2.isInitialise) = true →
      identity (run h (Initialise env0 n i v s0).state).state
        = { PlayerName := n, PlayerID := i, GameVersion := v }) := by
  refine ⟨fun hsd => ?_, fun hsd => ?_, fun env0 n i v s0 h hops => ?_⟩
  · rw [deliver_connected env s sock hsock hbound, hsd]; rfl
  · rw [deliver_connected env s sock hsock hbound, hsd]; rfl
  · rw [run_identity h _ hops, Initialise_identity]

/-- Claim C14 on the sample session, which is not shutting down. -/
theorem connected_event_requests_authentication_witness :
    Session.sample.ShuttingDown = false ∧
    identity Session.sample = { PlayerName := "name", PlayerID := "id", GameVersion := "1" } ∧
    deliver Env.sample TransportEvent.connected Session.sample = Outcome.returned
      (emit (Effect.send (ConvertMessageToString Env.sample.authToJson
        EWebSocketMessageType.RequestAuthentication (identity Session.sample)))
        Session.sample) :=
  ⟨by decide, by decide,
   (connected_event_requests_authentication Env.sample Session.sample
      ⟨true, true, true, true, true, true⟩ (by decide) (by decide)).2.1 (by decide)⟩

/-- Claim C16: in a session that wants to be connected and whose transport is connected,
after `PingServer` any number of `SendMessage` calls return without handing anything to
the transport and leave their messages in the queue, in order, behind what it held; when
a `Pong` is then handled, everything in the queue is handed to the transport in that
order and the queue is empty. -/
theorem pong_releases_held_messages (env0 env1 : Env) (s : Session) (sock : Transport)
    (h : List (Env × Op)) (m : String)
    (hwant : s.bWantToConnect = true) (hsock : s.Socket = some sock)
    (hconn : sock.connected = true) (hops : ∀ p ∈ h, p.2.isSend = true)
    (hkind : kindOf m = EWebSocketMessageType.Pong) :
    (PingServer env0 s).isReturned = true ∧
    (run h (afterPing env0 s)).isReturned = true ∧
    sends (run h (afterPing env0 s)).state.trace = sends (afterPing env0 s).trace ∧
    (run h (afterPing env0 s)).state.MessageOutQueue
      = s.MessageOutQueue ++ submittedTexts h ∧
    (HandleInboundMessage env1 m (run h (afterPing env0 s)).state).isReturned = true ∧
    sends (HandleInboundMessage env1 m (run h (afterPing env0 s)).state).state.trace
      = sends (afterPing env0 s).trace ++ (s.MessageOutQueue ++ submittedTexts h) ∧
    (HandleInboundMessage env1 m (run h (afterPing env0 s)).state).state.MessageOutQueue
      = [] := by
  obtain ⟨p1, p2, p3, -, p5, p6, -⟩ := Ping_socket env0 s sock hwant hsock
  obtain ⟨r1, r2, r3, -, r5, r6⟩ :=
    run_sends_held h (afterPing env0 s) sock hops p3 p2 hconn p5
  obtain ⟨i1, i2, i3⟩ := HandleInbound_Pong_connected env1 m
    (run h (afterPing env0 s)).state sock r2 r3 hconn hkind
  have hq : (afterPing env0 s).MessageOutQueue = s.MessageOutQueue := p6
  refine ⟨p1, r1, r5, ?_, i1, ?_, i3⟩
  · rw [r6, hq]
  · rw [i2, r5, r6, hq]

/-- Claim C16 on the sample session: two sends after a ping are held, then released by
the pong in the order `a`, then the kind-only `Ping` text. -/
theorem pong_releases_held_messages_witness :
    submittedTexts [(Env.sample, Op.SendMessage "a"), (Env.sample, Op.SendMessageType 5)]
      = ["a", "Ping\n\x7b\x7d"] ∧
    sends (run [(Env.sample, Op.SendMessage "a"), (Env.sample, Op.SendMessageType 5)]
        (afterPing Env.sample Session.sample)).state.trace
      = sends (afterPing Env.sample Session.sample).trace ∧
    sends (HandleInboundMessage Env.sample "Pong\n"
        (run [(Env.sample, Op.SendMessage "a"), (Env.sample, Op.SendMessageType 5)]
          (afterPing Env.sample Session.sample)).state).state.trace
      = sends (afterPing Env.sample Session.sample).trace
          ++ (Session.sample.MessageOutQueue
            ++ submittedTexts [(Env.sample, Op.SendMessage "a"),
                 (Env.sample, Op.SendMessageType 5)]) :=
  ⟨by decide,
   (pong_releases_held_messages Env.sample Env.sample Session.sample
      ⟨true, true, true, true, true, true⟩ _ "Pong\n" (by decide) (by decide) (by decide)
      (by decide) (by decide)).2.2.1,
   (pong_releases_held_messages Env.sample Env.sample Session.sample
      ⟨true, true, true, true, true, true⟩ _ "Pong\n" (by decide) (by decide) (by decide)
      (by decide) (by decide)).2.2.2.2.2.1⟩

/-- Claim C17: when the transport delivers its closed event, with any status code,
reason and clean flag, to the handler still bound on the socket, the session returns
with `bIsAuthenticated` false and every other member, the trace of requests to the
transport included, exactly as before. -/
theorem closed_event_only_clears_authenticated (env : Env) (s : Session) (sock : Transport)
    (StatusCode : Int) (Reason : String) (bWasClean : Bool)
    (hsock : s.Socket = some sock) (hbound : sock.onClosed = true) :
    deliver env (TransportEvent.closed StatusCode Reason bWasClean) s
      = Outcome.returned { s with bIsAuthenticated := false } :=
  deliver_closed env s sock StatusCode Reason bWasClean hsock hbound

/-- Claim C17 on the sample session after it has been authenticated. -/
theorem closed_event_only_clears_authenticated_witness :
    ({ Session.sample with bIsAuthenticated := true } : Session).Socket
      = some ⟨true, true, true, true, true, true⟩ ∧
    deliver Env.sample (TransportEvent.closed 1006 "lost" false)
        { Session.sample with bIsAuthenticated := true }
      = Outcome.returned
          { ({ Session.sample with bIsAuthenticated := true } : Session) with
            bIsAuthenticated := false } :=
  ⟨by decide,
   closed_event_only_clears_authenticated Env.sample
     { Session.sample with bIsAuthenticated := true } ⟨true, true, true, true, true, true⟩
     1006 "lost" false (by decide) (by decide)⟩

/-- Claim C19: when the session wants to be connected and its transport exists but is
not connected, `FlushMessageOutQueue` returns having issued exactly one `Connect` and
nothing else: no message goes to the transport, and the queue and the four flags keep
their values. -/
theorem flush_reconnects_when_not_connected (env : Env) (s : Session) (sock : Transport)
    (hwant : s.bWantToConnect = true) (hsock : s.Socket = some sock)
    (hconn : sock.connected = false) :
    FlushMessageOutQueue env s
      = Outcome.returned (emit Effect.connect (emit (Effect.call Fn.FlushMessageOutQueue) s)) ∧
    connects (FlushMessageOutQueue env s).state.trace = connects s.trace + 1 ∧
    sends (FlushMessageOutQueue env s).state.trace = sends s.trace ∧
    (FlushMessageOutQueue env s).state.MessageOutQueue = s.MessageOutQueue ∧
    (FlushMessageOutQueue env s).state.bWantToConnect = s.bWantToConnect ∧
    (FlushMessageOutQueue env s).state.bIsAuthenticated = s.bIsAuthenticated ∧
    (FlushMessageOutQueue env s).state.ConnectionIsLive = s.ConnectionIsLive ∧
    (FlushMessageOutQueue env s).state.ShuttingDown = s.ShuttingDown := by
  rw [Flush_not_connected env s sock hwant hsock hconn]
  refine ⟨rfl, ?_, ?_, rfl, rfl, rfl, rfl, rfl⟩
  · simp [connects, List.count_append]
  · simp [sends]

/-- Claim C19 on a session that has been initialised and whose transport has not
connected yet. -/
theorem flush_reconnects_when_not_connected_witness :
    (Initialise Env.sample "name" "id" "1" Session.fresh).state.Socket
      = some ⟨false, true, true, true, true, true⟩ ∧
    connects (FlushMessageOutQueue Env.sample
        (Initialise Env.sample "name" "id" "1" Session.fresh).state).state.trace
      = connects (Initialise Env.sample "name" "id" "1" Session.fresh).state.trace + 1 ∧
    sends (FlushMessageOutQueue Env.sample
        (Initialise Env.sample "name" "id" "1" Session.fresh).state).state.trace
      = sends (Initialise Env.sample "name" "id" "1" Session.fresh).state.trace :=
  ⟨by decide,
   (flush_reconnects_when_not_connected Env.sample
      (Initialise Env.sample "name" "id" "1" Session.fresh).state
      ⟨false, true, true, true, true, true⟩ (by decide) (by decide) (by decide)).2.1,
   (flush_reconnects_when_not_connected Env.sample
      (Initialise Env.sample "name" "id" "1" Session.fresh).state
      ⟨false, true, true, true, true, true⟩ (by decide) (by decide) (by decide)).2.2.1⟩

/-- Claim C21: in every state reached from a fresh session by a history of member
function calls and transport events, also one in which a call faults,
`bIsAuthenticated` true implies `bWantToConnect` true, and the same holds from any
starting state that satisfies it; `DisconnectFromServer`, the one place that clears
`bWantToConnect`, clears `bIsAuthenticated` too, and `PlayerAuthenticatedDelegate`, the
one place that sets `bIsAuthenticated`, leaves it false when the session does not want
to be connected. -/
theorem authenticated_implies_wanted (h : List (Env × Op)) :
    ((run h Session.fresh).state.bIsAuthenticated = true →
      (run h Session.fresh).state.bWantToConnect = true) ∧
    (∀ s : Session, (s.bIsAuthenticated = true → s.bWantToConnect = true) →
      (run h s).state.bIsAuthenticated = true → (run h s).state.bWantToConnect = true) ∧
    (∀ s : Session, (DisconnectFromServer s).bWantToConnect = false ∧
      (DisconnectFromServer s).bIsAuthenticated = false) ∧
    (∀ (env : Env) (p : FPlayerAuthenticatedPayload) (s : Session),
      s.bWantToConnect = false →
      (PlayerAuthenticatedDelegate env p s).state.bIsAuthenticated = false) := by
  refine ⟨run_keeps h Session.fresh (fun hs => rfl), fun s hs => run_keeps h s hs,
    fun s => ⟨Disconnect_want s, Disconnect_auth s⟩, fun env p s hw => ?_⟩
  simp only [PlayerAuthenticatedDelegate, emit_bWantToConnect, hw, Bool.not_false,
    ↓reduceIte, state_returned]
  exact Disconnect_auth _

/-- Claim C21 on a history that initialises, connects and receives the authentication
acknowledgement: the session ends authenticated and wanting to be connected. -/
theorem authenticated_implies_wanted_witness :
    (run [(Env.sample, Op.Initialise "name" "id" "1"),
          (Env.sample, Op.transport (TransportEvent.connectivity true)),
          (Env.sample, Op.transport
            (TransportEvent.message "PlayerAuthenticated\n\x7b\x7d"))]
      Session.fresh).state.bIsAuthenticated = true ∧
    (run [(Env.sample, Op.Initialise "name" "id" "1"),
          (Env.sample, Op.transport (TransportEvent.connectivity true)),
          (Env.sample, Op.transport
            (TransportEvent.message "PlayerAuthenticated\n\x7b\x7d"))]
      Session.fresh).state.bWantToConnect = true :=
  ⟨by decide, (authenticated_implies_wanted _).1 (by decide)⟩

end BasicWebSocket
